import Mathlib

set_option maxRecDepth 100000

/-!
# Verification of the Calm Sphere response pipeline

A shallow embedding, in Lean 4, of the safety-gated conversation response
pipeline of the Calm Sphere backend:

* `backend/core/llm.py` — the `LLMService` orchestrator (classifiers, strategy
  selection, safe fallbacks, daily greeting),
* `backend/core/llm_clients.py` — `build_chat_clients` (provider client list),
* `backend/api/chat.py` — the SSE streaming generators.

Modelling conventions:

* Python floats are modelled as exact rationals (`ℚ`); the decision thresholds
  in the source (`0.35`, `0.4`, `0.65`) are decimal literals compared against
  values parsed from decimal JSON text, so exact rational arithmetic matches
  the source's behaviour on all inputs considered here.
* A raised Python exception is modelled as `Except.error ()`: fallible code
  returns `Except PyExc α`, and a `try/except` in the source becomes a `match`
  on that value.
* The external provider (`chat_completions`) is an oracle `Nat → Except PyExc
  String` giving the outcome of the n-th HTTP call of a request; the
  conversation store is an oracle returning either a raised exception or the
  stored thread.  Every provider call made is recorded in an explicit call
  log, so theorems can speak about which classifiers actually ran.
* `json.loads` (Python standard library, not repository code) is modelled by
  an executable recursive-descent JSON parser over the JSON grammar
  (objects, arrays, strings with the standard escapes, decimal numbers with
  optional exponent, booleans, null); duplicate object keys resolve to the
  last occurrence, as in Python dicts.
-/

namespace Calm

/-- A JSON value (the result of Python's `json.loads`), with numbers as exact
rationals. -/
inductive JValue where
  | null : JValue
  | bool (b : Bool) : JValue
  | num (q : ℚ) : JValue
  | str (s : String) : JValue
  | arr (xs : List JValue) : JValue
  | obj (kvs : List (String × JValue)) : JValue

/-- Python truthiness of a JSON-shaped value (`None`, `False`, `0`, `""`,
`[]`, `{}` are falsy). -/
def truthy : JValue → Bool
  | .null => false
  | .bool b => b
  | .num q => q ≠ 0
  | .str s => s ≠ ""
  | .arr xs => ¬ xs.isEmpty
  | .obj kvs => ¬ kvs.isEmpty

/-- Python `dict.get(k)` on an object's key-value list: last occurrence wins
(as in a dict built by `json.loads`). -/
def dictGet (kvs : List (String × JValue)) (k : String) : Option JValue :=
  kvs.reverse.lookup k

/-- Python `dict.get(k, d)`. -/
def dictGetD (kvs : List (String × JValue)) (k : String) (d : JValue) : JValue :=
  (dictGet kvs k).getD d

/-- Whitespace for Python's `str.strip()` / `str.split()` (the ASCII cases;
the repository's strings only involve these). -/
def isPyWs (c : Char) : Bool :=
  c = ' ' || c = '\t' || c = '\n' || c = '\r' || c = '\x0b' || c = '\x0c'

/-- Python `str.strip()` on a character list. -/
def stripChars (l : List Char) : List Char :=
  ((l.dropWhile isPyWs).reverse.dropWhile isPyWs).reverse

/-- Python `str.strip()`. -/
def pyStrip (s : String) : String :=
  ⟨stripChars s.data⟩

/-- Python `str.strip('"')`. -/
def pyStripQuotes (s : String) : String :=
  ⟨((s.data.dropWhile (· = '"')).reverse.dropWhile (· = '"')).reverse⟩

/-- Python `str.split()` (split on whitespace runs, discarding empty pieces):
accumulator-based scan over the characters. -/
def splitWsAux : List Char → List Char → List (List Char)
  | [], acc => if acc = [] then [] else [acc.reverse]
  | c :: cs, acc =>
    if isPyWs c then
      if acc = [] then splitWsAux cs [] else acc.reverse :: splitWsAux cs []
    else
      splitWsAux cs (c :: acc)

/-- Python `str.split()` on a string, as the list of words (character lists). -/
def splitWs (s : String) : List (List Char) :=
  splitWsAux s.data []

/-- Number of whitespace-separated words of a string (the length of
`s.split()`). -/
def wordCount (s : String) : Nat :=
  (splitWs s).length

/-- Python `" ".join(words)`. -/
def joinSpace (ws : List (List Char)) : List Char :=
  match ws with
  | [] => []
  | w :: rest => w ++ (rest.map (fun v => ' ' :: v)).flatten

/-- Python `"\n".join(lines)`. -/
def joinNL (ls : List String) : String :=
  String.intercalate "\n" ls

/-- Line-break characters for Python `str.splitlines()` (the cases reachable
from this codebase: `\n` and `\r`). -/
def isLineBreak (c : Char) : Bool :=
  c = '\n' || c = '\r'

/-- Python `s.splitlines()[0] if s else ""`: the prefix of `s` before the
first line break. -/
def firstLine (s : String) : String :=
  ⟨s.data.takeWhile (fun c => ¬ isLineBreak c)⟩

/-! ## A model of `json.loads`

Executable recursive-descent parser for the JSON grammar, with fuel for
termination.  `none` models `json.loads` raising `JSONDecodeError`. -/

/-- JSON insignificant whitespace. -/
def skipJsonWs (l : List Char) : List Char :=
  l.dropWhile (fun c => c = ' ' || c = '\t' || c = '\n' || c = '\r')

/-- Numeric value of a decimal digit. -/
def digitVal (c : Char) : Nat :=
  c.toNat - '0'.toNat

/-- Read a maximal run of decimal digits, returning accumulated value, digit
count and remaining input. -/
def parseDigitsAux : List Char → Nat → Nat → Nat × Nat × List Char
  | [], v, n => (v, n, [])
  | c :: cs, v, n =>
    if c.isDigit then parseDigitsAux cs (10 * v + digitVal c) (n + 1)
    else (v, n, c :: cs)

/-- Build the rational `±m · 10^(e-f)` from sign, mantissa digits `m`,
fraction length `f` and exponent `e`. -/
def ratOfParts (sign : Bool) (m : Nat) (f : Nat) (e : Int) : ℚ :=
  let n : Int := if sign then -(m : Int) else (m : Int)
  let p : Int := e - (f : Int)
  Rat.divInt (n * 10 ^ p.toNat) (10 ^ (-p).toNat)

/-- Parse a JSON number (grammar: `-? int frac? exp?`, no leading zeros). -/
def parseNumber (l : List Char) : Option (JValue × List Char) :=
  let (sign, l1) := match l with
    | '-' :: rest => (true, rest)
    | _ => (false, l)
  match l1 with
  | [] => none
  | c :: _ =>
    if ¬ c.isDigit then none
    else
      let (m0, n0, l2) := parseDigitsAux l1 0 0
      if n0 = 0 then none
      else if c = '0' && n0 > 1 then none
      else
        let fracRes : Option (Nat × Nat × List Char) := match l2 with
          | '.' :: l2' =>
            let (mf, nf, l3') := parseDigitsAux l2' m0 0
            if nf = 0 then none else some (mf, nf, l3')
          | _ => some (m0, 0, l2)
        match fracRes with
        | none => none
        | some (m1, f1, l3) =>
          match l3 with
          | 'e' :: l4 | 'E' :: l4 =>
            let (esign, l5) := match l4 with
              | '+' :: rest => (false, rest)
              | '-' :: rest => (true, rest)
              | _ => (false, l4)
            let (ev, en, l6) := parseDigitsAux l5 0 0
            if en = 0 then none
            else
              let e : Int := if esign then -(ev : Int) else (ev : Int)
              some (.num (ratOfParts sign m1 f1 e), l6)
          | _ => some (.num (ratOfParts sign m1 f1 0), l3)

/-- Numeric value of a hexadecimal digit, if any (by code point: `0`-`9` are
48-57, `a`-`f` are 97-102, `A`-`F` are 65-70). -/
def hexVal (c : Char) : Option Nat :=
  let n := c.toNat
  if 48 ≤ n ∧ n ≤ 57 then some (n - 48)
  else if 97 ≤ n ∧ n ≤ 102 then some (n - 87)
  else if 65 ≤ n ∧ n ≤ 70 then some (n - 55)
  else none

/-- Parse the body of a JSON string after the opening quote, handling the
standard escapes (`\uXXXX` as a single code point; surrogate pairing is not
modelled). -/
def parseStringAux : Nat → List Char → List Char → Option (String × List Char)
  | 0, _, _ => none
  | fuel + 1, l, acc =>
    match l with
    | [] => none
    | '"' :: rest => some (⟨acc.reverse⟩, rest)
    | '\\' :: esc :: rest =>
      match esc with
      | '"' => parseStringAux fuel rest ('"' :: acc)
      | '\\' => parseStringAux fuel rest ('\\' :: acc)
      | '/' => parseStringAux fuel rest ('/' :: acc)
      | 'b' => parseStringAux fuel rest ('\x08' :: acc)
      | 'f' => parseStringAux fuel rest ('\x0c' :: acc)
      | 'n' => parseStringAux fuel rest ('\n' :: acc)
      | 'r' => parseStringAux fuel rest ('\r' :: acc)
      | 't' => parseStringAux fuel rest ('\t' :: acc)
      | 'u' =>
        match rest with
        | a :: b :: c :: d :: rest' =>
          match hexVal a, hexVal b, hexVal c, hexVal d with
          | some ha, some hb, some hc, some hd =>
            parseStringAux fuel rest'
              (Char.ofNat (((ha * 16 + hb) * 16 + hc) * 16 + hd) :: acc)
          | _, _, _, _ => none
        | _ => none
      | _ => none
    | '\\' :: [] => none
    | c :: rest =>
      if c.toNat < 0x20 then none
      else parseStringAux fuel rest (c :: acc)

mutual

/-- Parse one JSON value, returning it with the remaining input. -/
def parseValue : Nat → List Char → Option (JValue × List Char)
  | 0, _ => none
  | fuel + 1, l =>
    match skipJsonWs l with
    | [] => none
    | c :: rest =>
      if c = '{' then
        let r := skipJsonWs rest
        match r with
        | '}' :: r2 => some (.obj [], r2)
        | _ => do
          let (kvs, r3) ← parseMembers fuel r
          pure (.obj kvs, r3)
      else if c = '[' then
        let r := skipJsonWs rest
        match r with
        | ']' :: r2 => some (.arr [], r2)
        | _ => do
          let (xs, r3) ← parseElements fuel r
          pure (.arr xs, r3)
      else if c = '"' then do
        let (s, r2) ← parseStringAux (rest.length + 1) rest []
        pure (.str s, r2)
      else if c = 't' then
        match rest with
        | 'r' :: 'u' :: 'e' :: r2 => some (.bool true, r2)
        | _ => none
      else if c = 'f' then
        match rest with
        | 'a' :: 'l' :: 's' :: 'e' :: r2 => some (.bool false, r2)
        | _ => none
      else if c = 'n' then
        match rest with
        | 'u' :: 'l' :: 'l' :: r2 => some (.null, r2)
        | _ => none
      else parseNumber (c :: rest)

/-- Parse the members of a JSON object after its opening brace (non-empty
case), consuming the closing brace. -/
def parseMembers : Nat → List Char → Option (List (String × JValue) × List Char)
  | 0, _ => none
  | fuel + 1, l =>
    match skipJsonWs l with
    | '"' :: rest => do
      let (k, r2) ← parseStringAux (rest.length + 1) rest []
      match skipJsonWs r2 with
      | ':' :: r3 => do
        let (v, r4) ← parseValue fuel r3
        match skipJsonWs r4 with
        | ',' :: r5 => do
          let (kvs, r6) ← parseMembers fuel r5
          pure ((k, v) :: kvs, r6)
        | '}' :: r5 => pure ([(k, v)], r5)
        | _ => none
      | _ => none
    | _ => none

/-- Parse the elements of a JSON array after its opening bracket (non-empty
case), consuming the closing bracket. -/
def parseElements : Nat → List Char → Option (List JValue × List Char)
  | 0, _ => none
  | fuel + 1, l => do
    let (v, r1) ← parseValue fuel l
    match skipJsonWs r1 with
    | ',' :: r2 => do
      let (xs, r3) ← parseElements fuel r2
      pure (v :: xs, r3)
    | ']' :: r2 => pure ([v], r2)
    | _ => none

end

/-- `json.loads`: parse a full JSON document; anything but a single value
surrounded by whitespace fails. -/
def jsonLoads (s : String) : Option JValue :=
  match parseValue (2 * s.length + 2) s.data with
  | some (v, rest) => if skipJsonWs rest = [] then some v else none
  | none => none

/-- The regex-and-parse core of `_extract_first_json_object` on the text's
characters: `re.search(r"\{.*\}", text, flags=re.DOTALL)` matches — being
greedy — from the first `{` to the last `}` of the whole text (it matches
exactly when some `}` occurs strictly after the first `{`); the span is then
passed to `json.loads`. -/
def extractFirstJsonObjectChars (t : List Char) : Option JValue :=
  match List.findIdx? (fun c => c == '{') t with
  | none => none
  | some i =>
    match List.findIdx? (fun c => c == '}') t.reverse with
    | none => none
    | some rj =>
      let j := t.length - 1 - rj
      if i < j then jsonLoads ⟨(t.take (j + 1)).drop i⟩ else none

/-- `LLMService._extract_first_json_object` (llm.py): raise on empty text
(`if not text`), else regex-extract and parse.  `none` models a raised
exception. -/
def extractFirstJsonObject (text : String) : Option JValue :=
  if text.data = [] then none
  else extractFirstJsonObjectChars text.data

/-! ## Python value helpers used by the classifiers -/

/-- Python `float(x)` on a string: strip whitespace, then a decimal literal
with optional sign, fraction and exponent (`inf`/`nan`/underscores are not
modelled; they do not occur in classifier outputs considered here). -/
def pyFloatOfString (s : String) : Option ℚ :=
  let l := stripChars s.data
  let (sign, l1) := match l with
    | '-' :: r => (true, r)
    | '+' :: r => (false, r)
    | _ => (false, l)
  let (mi, ni, l2) := parseDigitsAux l1 0 0
  let intFrac : Option (Nat × Nat × List Char) := match l2 with
    | '.' :: l3 =>
      let (mf, nf, l4) := parseDigitsAux l3 mi 0
      if ni = 0 && nf = 0 then none else some (mf, nf, l4)
    | _ => if ni = 0 then none else some (mi, 0, l2)
  match intFrac with
  | none => none
  | some (m, f, l5) =>
    match l5 with
    | [] => some (ratOfParts sign m f 0)
    | 'e' :: l6 | 'E' :: l6 =>
      let (esign, l7) := match l6 with
        | '+' :: r => (false, r)
        | '-' :: r => (true, r)
        | _ => (false, l6)
      let (ev, en, l8) := parseDigitsAux l7 0 0
      if en = 0 then none
      else if !l8.isEmpty then none
      else some (ratOfParts sign m f (if esign then -(ev : Int) else (ev : Int)))
    | _ => none

/-- Python `float(x)` on a JSON-shaped value (`none` models a raised
`TypeError`/`ValueError`; `bool` is an `int` in Python). -/
def pyFloat : JValue → Option ℚ
  | .num q => some q
  | .bool b => some (if b then 1 else 0)
  | .str s => pyFloatOfString s
  | _ => none

/-- Python `x or d`. -/
def truthyOr (v : JValue) (d : JValue) : JValue :=
  if truthy v then v else d

/-- Python `str(v)` of a JSON-shaped value.  String inputs are exact; the
rendering of the other shapes (which only ever flows into prompt text, never
into a verified property) is approximated: Python renders floats with `repr`
and containers with their own syntax. -/
def pyStr : JValue → String
  | .str s => s
  | .bool b => if b then "True" else "False"
  | .null => "None"
  | .num q => if q.den = 1 then toString q.num else toString q.num ++ "/" ++ toString q.den
  | .arr _ => "[...]"
  | .obj _ => "\x7b...\x7d"

/-! ## Data model (llm.py) -/

/-- A chat message sent to a provider. -/
structure Msg where
  role : String
  content : String
deriving DecidableEq

/-- One recorded provider call (`chat_completions` arguments; the temperature
is in hundredths to stay rational). -/
structure ChatCall where
  provider : String
  model : String
  messages : List Msg
  maxTokens : Nat
  temperature : ℚ
deriving DecidableEq

/-- The request-scoped effect state: the log of provider calls made so far. -/
structure EffState where
  calls : List ChatCall
deriving DecidableEq

/-- Behaviour of the provider transport: the outcome of the n-th
`chat_completions` call of a request (`.error` models a raised exception). -/
abbrev Oracle := Nat → Except Unit String

/-- Perform one `chat_completions` call: record it and consult the oracle. -/
def runChat (oracle : Oracle) (call : ChatCall) (st : EffState) :
    Except Unit String × EffState :=
  (oracle st.calls.length, ⟨st.calls ++ [call]⟩)

def sysMsg (s : String) : Msg := ⟨"system", s⟩

def userMsg (s : String) : Msg := ⟨"user", s⟩

/-- The `LLMService` configuration fields relevant to response generation. -/
structure LLMConfig where
  mockMode : Bool
  modelResponse : String
  modelEmotion : String
  modelRisk : String
  modelAnalysis : String
  enableEmotion : Bool
  enableRisk : Bool
  apiKey : Option String

/-- Python truthiness of `self._hugging_face_api_key` (`None` and `""` are
falsy). -/
def hasKey (cfg : LLMConfig) : Bool :=
  match cfg.apiKey with
  | none => false
  | some s => s != ""

/-- A raw stored message (a dict): `get("role")` / `get("content")` may be
absent or any JSON-shaped value. -/
structure RawMsg where
  role : Option JValue
  content : Option JValue

/-- `store.get_thread` result: `none` models a falsy thread (`None`) or a
thread without a `"messages"` list; otherwise the stored message list. -/
abbrev ThreadData := Option (List RawMsg)

/-- Behaviour of the conversation store's single read
(`get_thread(user_id, thread_id)`); `.error` models a raised exception. -/
abbrev StoreFn := String → String → Except Unit ThreadData

/-- Python `xs[-k:]` for a literal `k > 0`: the last `k` elements. -/
def takeLastPy (k : Nat) (xs : List α) : List α :=
  xs.drop (xs.length - k)

/-- Python `xs[-max(limit, 0):]` as written in `_get_thread_history`
(note `xs[-0:]` is the whole list). -/
def sliceLastPy (k : Nat) (xs : List α) : List α :=
  if k = 0 then xs else xs.drop (xs.length - k)

/-- The filter of `_get_thread_history`: keep a message iff its role is the
string `"user"` or `"assistant"` and its content is a string with non-empty
strip. -/
def normalizeMsg (m : RawMsg) : Option Msg :=
  match m.role, m.content with
  | some (.str r), some (.str c) =>
    if (r == "user" || r == "assistant") && pyStrip c != "" then some ⟨r, c⟩ else none
  | _, _ => none

/-- `LLMService._get_thread_history`, after the store read: slice the last
`limit` stored messages, then normalize. -/
def getThreadHistoryPure (limit : Nat) (msgs : List RawMsg) : List Msg :=
  (sliceLastPy limit msgs).filterMap normalizeMsg

/-- `LLMService._get_thread_history`: the store read may raise, and the raise
propagates (there is no `try` in the source here). -/
def getThreadHistory (store : StoreFn) (uid tid : String) (limit : Nat) :
    Except Unit (List Msg) :=
  match store uid tid with
  | .error e => .error e
  | .ok t => .ok (getThreadHistoryPure limit (t.getD []))

/-! ## Classifier output schemas and parsing (llm.py) -/

/-- Parsed risk assessment. -/
structure RiskA where
  toxicity : ℚ
  selfHarm : ℚ
  harassment : ℚ
  sexual : ℚ
  violence : ℚ
  overallRisk : String
deriving DecidableEq

/-- The documented risk default: all scores `0.0`, `overall_risk = "low"`. -/
def riskDefault : RiskA := ⟨0, 0, 0, 0, 0, "low"⟩

/-- Parsed violence-intent assessment. -/
structure ViolenceA where
  otherDirectedViolence : String
  imminence : String
  confidence : ℚ
deriving DecidableEq

/-- The documented violence default: `{none, low, 0.0}`. -/
def violenceDefault : ViolenceA := ⟨"none", "low", 0⟩

/-- Parsed emotion assessment. -/
structure EmotionA where
  label : String
  confidence : ℚ
deriving DecidableEq

/-- The documented emotion default: `{other, 0.0}`. -/
def emotionDefault : EmotionA := ⟨"other", 0⟩

/-- View a JSON value as an object's key-value list (`none` models the
`AttributeError` of calling `.get` on a non-dict). -/
def asObjKvs : JValue → Option (List (String × JValue))
  | .obj kvs => some kvs
  | _ => none

/-- The `try` body of `_run_risk` on a raw response text: `none` models any
raised exception (extraction, decoding, or a failing `float()`). -/
def parseRiskOpt (content : String) : Option RiskA := do
  let payload ← extractFirstJsonObject content
  let kvs ← asObjKvs payload
  let overall := match dictGet kvs "overall_risk" with
    | some (.str s) => if s == "low" || s == "medium" || s == "high" then s else "low"
    | _ => "low"
  let tox ← pyFloat (truthyOr (dictGetD kvs "toxicity" (.num 0)) (.num 0))
  let sh ← pyFloat (truthyOr (dictGetD kvs "self_harm" (.num 0)) (.num 0))
  let har ← pyFloat (truthyOr (dictGetD kvs "harassment" (.num 0)) (.num 0))
  let sex ← pyFloat (truthyOr (dictGetD kvs "sexual" (.num 0)) (.num 0))
  let vio ← pyFloat (truthyOr (dictGetD kvs "violence" (.num 0)) (.num 0))
  pure ⟨tox, sh, har, sex, vio, overall⟩

/-- `_run_risk`'s parsing, with its `except` clause returning the default. -/
def riskClassify (content : String) : RiskA :=
  (parseRiskOpt content).getD riskDefault

/-- The `try` body of `_run_violence_intent` on a raw response text.  The
`confidence` conversion happens before the enum coercions, as in the source. -/
def parseViolenceOpt (content : String) : Option ViolenceA := do
  let payload ← extractFirstJsonObject content
  let kvs ← asObjKvs payload
  let cls0 := dictGet kvs "other_directed_violence"
  let imm0 := dictGet kvs "imminence"
  let conf ← pyFloat (truthyOr (dictGetD kvs "confidence" (.num 0)) (.num 0))
  let cls := match cls0 with
    | some (.str s) => if s == "none" || s == "venting" || s == "explicit" then s else "none"
    | _ => "none"
  let imm := match imm0 with
    | some (.str s) => if s == "low" || s == "medium" || s == "high" then s else "low"
    | _ => "low"
  pure ⟨cls, imm, conf⟩

/-- `_run_violence_intent`'s parsing, with its `except` clause. -/
def violenceClassify (content : String) : ViolenceA :=
  (parseViolenceOpt content).getD violenceDefault

/-- The `try` body of `_run_emotion` on a raw response text: the label must
be a string (with no membership check against the documented label set) and
the confidence an `int`/`float` (which includes `bool` in Python). -/
def parseEmotionOpt (content : String) : Option EmotionA := do
  let payload ← extractFirstJsonObject content
  let kvs ← asObjKvs payload
  let label ← match dictGet kvs "label" with
    | some (.str s) => some s
    | _ => none
  let conf ← match dictGet kvs "confidence" with
    | some (.num q) => some q
    | some (.bool b) => some (if b then (1 : ℚ) else 0)
    | _ => none
  pure ⟨label, conf⟩

/-- `_run_emotion`'s parsing, with its `except` clause. -/
def emotionClassify (content : String) : EmotionA :=
  (parseEmotionOpt content).getD emotionDefault

/-- The pattern-analysis keys, in source order. -/
def patternKeys : List String := ["emotions", "reactions", "values", "themes"]

/-- The `try` body of `_run_user_strengths_analysis` on a raw response. -/
def parseStrengthsOpt (limit : Nat) (content : String) : Option (List String) := do
  let payload ← extractFirstJsonObject content
  let kvs ← asObjKvs payload
  let conf ← pyFloat (truthyOr (dictGetD kvs "confidence" (.num 0)) (.num 0))
  if conf < mkRat 35 100 then pure []
  else
    match dictGet kvs "strengths" with
    | some (.arr raw) =>
      pure ((((raw.map (fun v => pyStrip (pyStr v))).filter (fun s => s != ""))).take limit)
    | _ => pure []

/-- `_run_user_strengths_analysis`'s parsing, with its `except` clause. -/
def strengthsClassify (limit : Nat) (content : String) : List String :=
  (parseStrengthsOpt limit content).getD []

/-- The `try` body of `_run_user_pattern_analysis` on a raw response: the
result keeps only the keys whose cleaned value list is non-empty, capped at 3
entries each, in source key order. -/
def parsePatternsOpt (content : String) : Option (List (String × List String)) := do
  let payload ← extractFirstJsonObject content
  let kvs ← asObjKvs payload
  let conf ← pyFloat (truthyOr (dictGetD kvs "confidence" (.num 0)) (.num 0))
  if conf < mkRat 35 100 then pure []
  else
    pure (patternKeys.filterMap (fun key =>
      match dictGet kvs key with
      | some (.arr value) =>
        let cleaned := (value.map (fun v => pyStrip (pyStr v))).filter (fun s => s != "")
        if cleaned.isEmpty then none else some (key, cleaned.take 3)
      | _ => none))

/-- `_run_user_pattern_analysis`'s parsing, with its `except` clause. -/
def patternsClassify (content : String) : List (String × List String) :=
  (parsePatternsOpt content).getD []

/-- `_should_run_violence_deescalation` (llm.py): the de-escalation decision,
with the fixed policy thresholds `0.35`, `0.65`, `0.4` of the source. -/
def shouldRunViolenceDeescalation (risk : RiskA) (va : ViolenceA) : Bool :=
  let cls := va.otherDirectedViolence
  let conf := va.confidence
  let violenceScore := risk.violence
  let selfHarmScore := risk.selfHarm
  if (cls == "venting" || cls == "explicit") && decide (conf ≥ mkRat 35 100) then true
  else decide (violenceScore ≥ mkRat 65 100) && decide (selfHarmScore < mkRat 4 10)

/-- `_should_run_risk`: always `True` when the risk stage is enabled. -/
def shouldRunRisk (_userMessage : String) (_history : List Msg) : Bool := true

/-! ## `json.dumps` (for the risk dict in prompts and the SSE payloads) -/

/-- Decimal rendering of a rational for `json.dumps`: exact for integers;
non-integers (which only ever flow into prompt text) are approximated as a
fraction, where Python would use float `repr`. -/
def ratDump (q : ℚ) : String :=
  if q.den = 1 then toString q.num else toString q.num ++ "/" ++ toString q.den

def hexDigitChar (n : Nat) : Char :=
  Char.ofNat (if n < 10 then 48 + n else 87 + n)

/-- JSON string escaping as `json.dumps` does for the characters appearing
here: quote, backslash, and control characters. -/
def escapeJsonChar (c : Char) : List Char :=
  if c = '"' then ['\\', '"']
  else if c = '\\' then ['\\', '\\']
  else if c = '\n' then ['\\', 'n']
  else if c = '\t' then ['\\', 't']
  else if c = '\r' then ['\\', 'r']
  else if 0x20 ≤ c.toNat then [c]
  else ['\\', 'u', '0', '0'] ++ [hexDigitChar (c.toNat / 16), hexDigitChar (c.toNat % 16)]

def escapeJsonString (s : String) : String :=
  ⟨(s.data.map escapeJsonChar).flatten⟩

mutual

/-- `json.dumps` with its default separators `", "` and `": "`. -/
def jsonDumps : JValue → String
  | .null => "null"
  | .bool b => if b then "true" else "false"
  | .num q => ratDump q
  | .str s => "\"" ++ escapeJsonString s ++ "\""
  | .arr xs => "[" ++ String.intercalate ", " (jsonDumpsList xs) ++ "]"
  | .obj kvs => "\x7b" ++ String.intercalate ", " (jsonDumpsMembers kvs) ++ "\x7d"

/-- `json.dumps` of each array element. -/
def jsonDumpsList : List JValue → List String
  | [] => []
  | v :: vs => jsonDumps v :: jsonDumpsList vs

/-- `json.dumps` of each `"key": value` member. -/
def jsonDumpsMembers : List (String × JValue) → List String
  | [] => []
  | (k, v) :: kvs =>
    ("\"" ++ escapeJsonString k ++ "\": " ++ jsonDumps v) :: jsonDumpsMembers kvs

end

/-- The risk dict as a JSON value, in its construction key order. -/
def riskToJson (r : RiskA) : JValue :=
  .obj [("toxicity", .num r.toxicity), ("self_harm", .num r.selfHarm),
    ("harassment", .num r.harassment), ("sexual", .num r.sexual),
    ("violence", .num r.violence), ("overall_risk", .str r.overallRisk)]

/-! ## Prompt assembly (llm.py) -/

/-- `re.sub(r"\s+", " ", s)`: scan with an "inside a whitespace run" flag,
emitting one space at the start of each run. -/
def compactWsAux : List Char → Bool → List Char
  | [], _ => []
  | c :: cs, inRun =>
    if isPyWs c then
      if inRun then compactWsAux cs true else ' ' :: compactWsAux cs true
    else c :: compactWsAux cs false

/-- `re.sub(r"\s+", " ", s)`: collapse every whitespace run to one space. -/
def compactWsChars (l : List Char) : List Char :=
  compactWsAux l false

/-- The context joiner used by the classifiers:
`"\n".join(f"... role: content ..." for m in h if m["role"] in ...)`. -/
def ctxJoin (h : List Msg) : String :=
  joinNL ((h.filter (fun m => m.role == "user" || m.role == "assistant")).map
    (fun m => m.role ++ ": " ++ m.content))

/-- `_extract_recent_assistant_messages` loop body over `reversed(history)`. -/
def extractRecentAssistantAux (limit : Nat) : List Msg → List String → List String
  | [], acc => acc.reverse
  | m :: rest, acc =>
    if m.role != "assistant" then extractRecentAssistantAux limit rest acc
    else
      let content := pyStrip m.content
      if content == "" then extractRecentAssistantAux limit rest acc
      else
        let compact : String := ⟨(compactWsChars content.data).take 220⟩
        let acc' := compact :: acc
        if acc'.length ≥ limit then acc'.reverse
        else extractRecentAssistantAux limit rest acc'

/-- `_extract_recent_assistant_messages`: up to `limit` most recent non-empty
assistant messages (most recent first), whitespace-compacted, 220 chars. -/
def extractRecentAssistant (history : List Msg) (limit : Nat) : List String :=
  extractRecentAssistantAux limit history.reverse []

def joinBar (xs : List String) : String := String.intercalate " | " xs

def riskSystem : String :=
  "You are a safety classifier for a mental health support chatbot.\nReturn ONLY valid JSON with this schema:\n\x7b\"toxicity\":0.0,\"self_harm\":0.0,\"harassment\":0.0,\"sexual\":0.0,\"violence\":0.0,\"overall_risk\":\"low|medium|high\"\x7d\nUse overall_risk=\x27high\x27 if self-harm intent is likely or imminent danger is mentioned.\nNo extra keys, no markdown, no explanations."

def violenceSystem : String :=
  "You are a safety classifier for other-directed violence in chat.\nReturn ONLY valid JSON with schema:\n\x7b\"other_directed_violence\":\"none|venting|explicit\",\"imminence\":\"low|medium|high\",\"confidence\":0.0\x7d\nClassify venting when violent language appears as emotional expression without clear plan.\nClassify explicit when user directly wishes or states harm toward another person.\nNo markdown, no extra keys."

def emotionSystem : String :=
  "You are an emotion classifier.\nReturn ONLY valid JSON with this schema:\n\x7b\"label\":\"sad|anxious|angry|neutral|happy|overwhelmed|lonely|stressed|other\",\"confidence\":0.0\x7d\nNo extra keys, no markdown, no explanations."

def strengthsSystem : String :=
  "You identify user strengths from conversation context for supportive reflection.\nReturn ONLY valid JSON with schema:\n\x7b\"strengths\":[string],\"confidence\":0.0\x7d\nRules:\n- Infer strengths from evidence in text (effort, resilience, values, actions).\n- Use short phrases.\n- If no clear evidence, return an empty list.\n- No markdown, no extra keys."

def patternsSystem : String :=
  "You analyze conversation patterns for a support chatbot.\nInfer likely repeated patterns from context only. Do not use fixed taxonomies.\nReturn ONLY valid JSON with schema:\n\x7b\"emotions\":[string],\"reactions\":[string],\"values\":[string],\"themes\":[string],\"confidence\":0.0\x7d\nRules:\n- Use short natural-language phrases (2-6 words each).\n- Prefer repeated signals, not one-off lines.\n- If uncertain, return empty arrays.\n- No markdown, no explanations, no extra keys."

/-- The static head of the standard-response system prompt. -/
def responseBaseSystem : String :=
  "You are Calm Sphere, a supportive mental health assistant.\nBe empathetic, calm, warm, and concise.\nSound like a caring friend while staying emotionally safe and grounded.\nDo not diagnose or give medical advice.\nKeep your response to 1–3 short paragraphs.\nBe a careful listener first: reflect what you heard before offering suggestions.\nWhen the user is mistaken, confused, unfair, or self-contradictory, respond politely and gently.\nDo not scold, shame, or use a superior tone.\nUse soft language like \x27It might help to consider...\x27 or \x27Could it be that...\x27.\nPrefer collaborative phrasing: \x27we can\x27 and \x27let\x27s explore\x27.\nUnderstand the user through three lenses over time: feelings, reaction style, and values.\nPrefer reflective language over labels: say \x27I notice...\x27 not \x27you are...\x27.\nOne message can be noise; repeated themes are more meaningful.\nIf jealousy/comparison appears, explore unmet needs (recognition, belonging, worth) without shaming.\nValidate emotions, but never validate violence, revenge, or harm.\nIf user expresses desire to harm others, do not agree, do not moralize; de-escalate and redirect to underlying feelings.\nIf the user expresses hopelessness, self-harm, or suicidal thoughts:\n- Acknowledge their pain directly in the first line.\n- Prioritize immediate safety and ask one clear safety-check question.\n- Offer one tiny, concrete next step they can do now.\n- Encourage reaching out to a trusted person or local crisis support.\n- Never ignore or deflect these signals.\nWhen helpful, reference the user\x27s own strengths/achievements from earlier messages to build hope.\nDo this in a validating way, never as blame, pressure, or guilt.\nUse fresh wording each turn; do not repeat canned lines.\nIf the user asks for a routine, give 3–5 concrete, realistic steps.\n"

/-- The static head of the crisis-response system prompt. -/
def crisisBaseSystem : String :=
  "You are Calm Sphere, handling a high-risk self-harm/suicide conversation.\nWrite a compassionate, human response that feels present and personal.\nNever sound scripted or repetitive.\nListen first and reflect the user\x27s words before any instruction.\nIf the user is confused or contradictory, keep tone gentle and non-judgmental.\nRequired structure:\n1) Validate pain in one short sentence.\n2) Ask one direct safety-check question.\n3) Offer one immediate, concrete step for the next 5 minutes.\n4) Encourage contacting trusted support and crisis services.\nIf user location is unknown, say local emergency services; include 988 only as U.S. option.\nDo not diagnose. Do not moralize. Do not guilt or shame.\nKeep to 2-4 short paragraphs.\nUse new wording each turn.\n"

/-- The static head of the de-escalation system prompt. -/
def deescBaseSystem : String :=
  "You are Calm Sphere, handling a user statement with other-directed violent ideation.\nPrimary rule: validate emotion, never validate harm.\nDo NOT agree with violence, justify it, or provide harmful suggestions.\nDo NOT shame the user.\nListen and reflect first; keep language polite even when rejecting harm.\nIf user framing is unfair or mistaken, gently reframe without blame.\nRequired structure:\n1) Acknowledge emotional intensity in one sentence.\n2) Clearly but calmly reject harm-focused framing.\n3) Ask one exploratory question about what is underneath (hurt, fear, jealousy, being unseen, betrayal).\n4) Offer one immediate de-escalation action for the next 5 minutes.\nKeep response to 2 short paragraphs max.\nUse soft, human language, not legal or clinical tone.\n"

/-- `emotion_line` of `_run_response`. -/
def emotionLine (emotion : Option EmotionA) : String :=
  match emotion with
  | some e => if e.confidence ≥ mkRat 4 10 then "\nDetected emotion: " ++ e.label ++ "." else ""
  | none => ""

/-- `strengths_line` of `_run_response`. -/
def strengthsLine (strengths : List String) : String :=
  if strengths.isEmpty then ""
  else "\nKnown user strengths from prior messages (use gently, no guilt/shaming): " ++ joinBar strengths

/-- `anti_repeat_line` of `_run_response`. -/
def antiRepeatLine (recent : List String) : String :=
  if recent.isEmpty then ""
  else "\nRecent assistant messages to avoid repeating verbatim: " ++ joinBar recent

/-- The `pattern_parts` rendering shared by `_run_response` and the
de-escalation prompt. -/
def patternBlocks (ps : List (String × List String)) : List String :=
  ps.map (fun kv => kv.1 ++ ": " ++ String.intercalate ", " kv.2)

/-- `pattern_line` of `_run_response`. -/
def patternLine (ps : List (String × List String)) : String :=
  if ps.isEmpty then ""
  else
    let parts := patternBlocks ps
    if parts.isEmpty then ""
    else "\nObserved user patterns across recent messages (tentative, do not overstate): " ++ joinBar parts

/-- The full standard-response system prompt. -/
def responseSystem (emotion : Option EmotionA) (strengths : List String)
    (ps : List (String × List String)) (recent : List String) : String :=
  pyStrip (responseBaseSystem ++ emotionLine emotion ++ strengthsLine strengths
    ++ patternLine ps ++ antiRepeatLine recent)

/-- `strengths_line` of `_run_crisis_response`. -/
def crisisStrengthsLine (strengths : List String) : String :=
  if strengths.isEmpty then ""
  else "User strengths to reference gently when appropriate: " ++ joinBar strengths

/-- `repeat_guard_line` of the crisis and de-escalation prompts. -/
def repeatGuardLine (recent : List String) : String :=
  if recent.isEmpty then ""
  else "Do not reuse these prior assistant lines or close paraphrases: " ++ joinBar recent

/-- `pattern_line` of `_run_violence_deescalation_response`. -/
def deescPatternLine (ps : List (String × List String)) : String :=
  if ps.isEmpty then ""
  else
    if (patternBlocks ps).isEmpty then ""
    else "Observed user patterns (tentative): " ++ joinBar (patternBlocks ps)

/-- The full crisis-response system prompt. -/
def crisisSystem (strengths recent : List String) (risk : RiskA) : String :=
  pyStrip (crisisBaseSystem ++ crisisStrengthsLine strengths ++ "\n"
    ++ repeatGuardLine recent ++ "\n"
    ++ "Risk classifier output: " ++ jsonDumps (riskToJson risk))

/-- The full de-escalation system prompt. -/
def deescSystem (ps : List (String × List String)) (recent : List String) (risk : RiskA) : String :=
  pyStrip (deescBaseSystem ++ deescPatternLine ps ++ "\n"
    ++ repeatGuardLine recent ++ "\n"
    ++ "Risk classifier output: " ++ jsonDumps (riskToJson risk))

/-- `_safe_fallback_response`: the two deterministic non-empty fallbacks. -/
def safeFallback (userMessage : String) : String :=
  if pyStrip userMessage != "" then
    "I\x27m here and listening. I might have missed part of that, but I still want to understand. Could you tell me a little more about what feels most important right now?"
  else
    "I\x27m here with you. Share whatever is on your mind, and we can take it one step at a time."

/-! ## The classifier and response runners (llm.py)

Each runner mirrors one `_run_*` method.  In the source, the
`chat_completions` call sits *outside* the `try`, so a provider exception
propagates out of the classifier (it is only caught at the
`generate_response` boundary); parsing failures are caught locally. -/

/-- The `chat_completions` argument record of `_run_risk`. -/
def riskCall (cfg : LLMConfig) (userMessage : String) (history : List Msg) : ChatCall :=
  ⟨"huggingface", cfg.modelRisk,
    [sysMsg riskSystem,
     userMsg ("Context:\n" ++ ctxJoin (takeLastPy 4 history) ++ "\n\nNew message:\n" ++ userMessage)],
    600, 0⟩

/-- The `chat_completions` argument record of `_run_violence_intent`. -/
def violenceCall (cfg : LLMConfig) (userMessage : String) (history : List Msg) : ChatCall :=
  ⟨"huggingface", cfg.modelRisk,
    [sysMsg violenceSystem,
     userMsg ("Context:\n" ++ ctxJoin (takeLastPy 8 history) ++ "\n\nNew message:\n" ++ userMessage)],
    180, 0⟩

/-- The `chat_completions` argument record of `_run_emotion`. -/
def emotionCall (cfg : LLMConfig) (userMessage : String) : ChatCall :=
  ⟨"huggingface", cfg.modelEmotion, [sysMsg emotionSystem, userMsg userMessage], 200, 0⟩

/-- The `chat_completions` argument record of `_run_user_strengths_analysis`. -/
def strengthsCall (cfg : LLMConfig) (userMessage : String) (history : List Msg) : ChatCall :=
  ⟨"huggingface", cfg.modelAnalysis,
    [sysMsg strengthsSystem,
     userMsg ("Context:\n" ++ ctxJoin (takeLastPy 10 history) ++ "\n\nNew user message:\n" ++ userMessage)],
    180, 0⟩

/-- The `chat_completions` argument record of `_run_user_pattern_analysis`. -/
def patternsCall (cfg : LLMConfig) (userMessage : String) (history : List Msg) : ChatCall :=
  ⟨"huggingface", cfg.modelAnalysis,
    [sysMsg patternsSystem,
     userMsg ("Context:\n" ++ ctxJoin (takeLastPy 8 history) ++ "\n\nNew user message:\n" ++ userMessage)],
    280, 0⟩

/-- The `chat_completions` argument record of a response-generation call
(standard, crisis, or de-escalation, which differ in system prompt, token
budget and temperature). -/
def responseCall (cfg : LLMConfig) (system : String) (history : List Msg)
    (userMessage : String) (maxTokens : Nat) (temperature : ℚ) : ChatCall :=
  ⟨"huggingface", cfg.modelResponse,
    sysMsg system :: (takeLastPy 8 history ++ [userMsg userMessage]), maxTokens, temperature⟩

/-- `_run_risk`. -/
def runRisk (cfg : LLMConfig) (oracle : Oracle) (userMessage : String)
    (history : List Msg) (st : EffState) : Except Unit RiskA × EffState :=
  match runChat oracle (riskCall cfg userMessage history) st with
  | (.error e, st') => (.error e, st')
  | (.ok content, st') => (.ok (riskClassify content), st')

/-- `_run_violence_intent`. -/
def runViolence (cfg : LLMConfig) (oracle : Oracle) (userMessage : String)
    (history : List Msg) (st : EffState) : Except Unit ViolenceA × EffState :=
  match runChat oracle (violenceCall cfg userMessage history) st with
  | (.error e, st') => (.error e, st')
  | (.ok content, st') => (.ok (violenceClassify content), st')

/-- `_run_emotion`. -/
def runEmotion (cfg : LLMConfig) (oracle : Oracle) (userMessage : String)
    (st : EffState) : Except Unit EmotionA × EffState :=
  match runChat oracle (emotionCall cfg userMessage) st with
  | (.error e, st') => (.error e, st')
  | (.ok content, st') => (.ok (emotionClassify content), st')

/-- `_run_user_strengths_analysis`. -/
def runStrengths (cfg : LLMConfig) (oracle : Oracle) (history : List Msg)
    (userMessage : String) (limit : Nat) (st : EffState) :
    Except Unit (List String) × EffState :=
  match runChat oracle (strengthsCall cfg userMessage history) st with
  | (.error e, st') => (.error e, st')
  | (.ok content, st') => (.ok (strengthsClassify limit content), st')

/-- `_run_user_pattern_analysis`. -/
def runPatterns (cfg : LLMConfig) (oracle : Oracle) (history : List Msg)
    (userMessage : String) (st : EffState) :
    Except Unit (List (String × List String)) × EffState :=
  match runChat oracle (patternsCall cfg userMessage history) st with
  | (.error e, st') => (.error e, st')
  | (.ok content, st') => (.ok (patternsClassify content), st')

/-- `_run_response`: strengths analysis, recent-assistant guard, pattern
analysis, then the generation call (whose own failure is caught and becomes
the safe fallback; the analysis calls may raise through). -/
def runResponse (cfg : LLMConfig) (oracle : Oracle) (userMessage : String)
    (history : List Msg) (emotion : Option EmotionA) (st : EffState) :
    Except Unit String × EffState :=
  match runStrengths cfg oracle history userMessage 2 st with
  | (.error e, st1) => (.error e, st1)
  | (.ok strengths, st1) =>
    match runPatterns cfg oracle history userMessage st1 with
    | (.error e, st2) => (.error e, st2)
    | (.ok ps, st2) =>
      match runChat oracle (responseCall cfg
          (responseSystem emotion strengths ps (extractRecentAssistant history 3))
          history userMessage 256 (mkRat 7 10)) st2 with
      | (.error _, st3) => (.ok (safeFallback userMessage), st3)
      | (.ok content, st3) => (.ok (pyStrip content), st3)

/-- `_run_crisis_response`. -/
def runCrisisResponse (cfg : LLMConfig) (oracle : Oracle) (userMessage : String)
    (history : List Msg) (risk : RiskA) (st : EffState) :
    Except Unit String × EffState :=
  match runStrengths cfg oracle history userMessage 2 st with
  | (.error e, st1) => (.error e, st1)
  | (.ok strengths, st1) =>
    match runChat oracle (responseCall cfg
        (crisisSystem strengths (extractRecentAssistant history 3) risk)
        history userMessage 300 (mkRat 8 10)) st1 with
    | (.error _, st2) => (.ok (safeFallback userMessage), st2)
    | (.ok content, st2) =>
      (.ok (if pyStrip content == "" then safeFallback userMessage else pyStrip content), st2)

/-- `_run_violence_deescalation_response`. -/
def runDeescResponse (cfg : LLMConfig) (oracle : Oracle) (userMessage : String)
    (history : List Msg) (risk : RiskA) (st : EffState) :
    Except Unit String × EffState :=
  match runPatterns cfg oracle history userMessage st with
  | (.error e, st1) => (.error e, st1)
  | (.ok ps, st1) =>
    match runChat oracle (responseCall cfg
        (deescSystem ps (extractRecentAssistant history 3) risk)
        history userMessage 260 (mkRat 7 10)) st1 with
    | (.error _, st2) => (.ok (safeFallback userMessage), st2)
    | (.ok content, st2) =>
      (.ok (if pyStrip content == "" then safeFallback userMessage else pyStrip content), st2)

/-! ## The orchestrator (llm.py) -/

/-- `_run_response(...) or _safe_fallback_response(...)`: the last line of
`_generate_llm_response`. -/
def respondChecked (cfg : LLMConfig) (oracle : Oracle) (userMessage : String)
    (history : List Msg) (emotion : Option EmotionA) (st : EffState) :
    Except Unit String × EffState :=
  match runResponse cfg oracle userMessage history emotion st with
  | (.error e, st1) => (.error e, st1)
  | (.ok s, st1) => (.ok (if s == "" then safeFallback userMessage else s), st1)

/-- Tail of `_generate_llm_response`: optional emotion stage, then the
standard response. -/
def emotionAndRespond (cfg : LLMConfig) (oracle : Oracle) (userMessage : String)
    (history : List Msg) (st : EffState) : Except Unit String × EffState :=
  if cfg.enableEmotion then
    match runEmotion cfg oracle userMessage st with
    | (.error e, st1) => (.error e, st1)
    | (.ok emo, st1) => respondChecked cfg oracle userMessage history (some emo) st1
  else respondChecked cfg oracle userMessage history none st

/-- `_generate_llm_response`: guards, history retrieval (whose exception
propagates), the staged risk/violence decision, then response generation. -/
def generateLlmResponse (cfg : LLMConfig) (store : Option StoreFn) (oracle : Oracle)
    (uid tid userMessage : String) (st : EffState) : Except Unit String × EffState :=
  match store with
  | none => (.ok (safeFallback userMessage), st)
  | some getThread =>
    if !hasKey cfg then (.ok (safeFallback userMessage), st)
    else
      match getThreadHistory getThread uid tid 10 with
      | .error e => (.error e, st)
      | .ok history =>
        if cfg.enableRisk && shouldRunRisk userMessage history then
          match runRisk cfg oracle userMessage history st with
          | (.error e, st1) => (.error e, st1)
          | (.ok risk, st1) =>
            if risk.overallRisk == "high" then
              runCrisisResponse cfg oracle userMessage history risk st1
            else
              match runViolence cfg oracle userMessage history st1 with
              | (.error e, st2) => (.error e, st2)
              | (.ok va, st2) =>
                if shouldRunViolenceDeescalation risk va then
                  runDeescResponse cfg oracle userMessage history risk st2
                else emotionAndRespond cfg oracle userMessage history st2
        else emotionAndRespond cfg oracle userMessage history st

/-- `_generate_mock_response`. -/
def generateMockResponse (userMessage : String) : String :=
  "You said: " ++ userMessage

/-- `generate_response`: the public entry point, with the outermost
`try/except` converting any raised exception, and any blank generation, into
the safe fallback.  Returns the reply together with the final call log. -/
def generateResponse (cfg : LLMConfig) (store : Option StoreFn) (oracle : Oracle)
    (uid tid userMessage : String) : String × EffState :=
  if cfg.mockMode then (generateMockResponse userMessage, ⟨[]⟩)
  else
    match generateLlmResponse cfg store oracle uid tid userMessage ⟨[]⟩ with
    | (.ok response, st) =>
      if pyStrip response != "" then (pyStrip response, st)
      else (safeFallback userMessage, st)
    | (.error _, st) => (safeFallback userMessage, st)

/-! ## `generate_daily_ready_message` (llm.py) -/

/-- The five canned greeting lines. -/
def cannedReady : List String :=
  ["Ready when you are.",
   "I\x27m here for you.",
   "Start when you feel ready.",
   "Take your time today.",
   "Begin wherever feels right."]

/-- `canned[abs(hash(date_key)) % len(canned)]`, with Python's string `hash`
as an explicit parameter (it is process-seeded). -/
def readyFallback (pyHash : String → Int) (dateKey : String) : String :=
  cannedReady.getD ((pyHash dateKey).natAbs % cannedReady.length) ""

def readySystem : String :=
  "Write one short, warm opening line for a mental wellness chat app.\nConstraints:\n- 2 to 5 words\n- gentle and encouraging tone\n- no emojis\n- no quotation marks\n- avoid mentioning dates explicitly\nReturn only the single line but should be meaningfully short."

/-- The `chat_completions` argument record of `generate_daily_ready_message`. -/
def readyCall (cfg : LLMConfig) (today : String) : ChatCall :=
  ⟨"huggingface", cfg.modelResponse,
    [sysMsg readySystem, userMsg ("Generate today\x27s line for " ++ today ++ ".")],
    40, mkRat 8 10⟩

/-- The post-processing of a successful daily-greeting generation
(`generate_daily_ready_message` lines after the provider call): in source
terms, `content = raw.strip()`,
`first_line = (content.splitlines()[0] if content else "").strip().strip('"')`,
`words = first_line.split()`, `clamped = " ".join(words[:5]).strip()`, and
each blank stage falls back. -/
def readyClamp (fallback raw : String) : String :=
  if pyStripQuotes (pyStrip (firstLine (pyStrip raw))) == "" then fallback
  else if pyStrip ⟨joinSpace ((splitWs (pyStripQuotes (pyStrip (firstLine (pyStrip raw))))).take 5)⟩
      == "" then fallback
  else pyStrip ⟨joinSpace ((splitWs (pyStripQuotes (pyStrip (firstLine (pyStrip raw))))).take 5)⟩

/-- The `try/except` around the daily-greeting provider call: an exception
falls back, a success is clamped. -/
def readyOutcome (fallback : String) (res : Except Unit String) : String :=
  match res with
  | .error _ => fallback
  | .ok raw => readyClamp fallback raw

/-- `generate_daily_ready_message`: `today` stands for the wall-clock date
string interpolated into the user prompt. -/
def generateDailyReadyMessage (pyHash : String → Int) (cfg : LLMConfig)
    (oracle : Oracle) (today dateKey : String) : String × EffState :=
  let fallback := readyFallback pyHash dateKey
  if cfg.mockMode || !hasKey cfg then (fallback, ⟨[]⟩)
  else
    (readyOutcome fallback (runChat oracle (readyCall cfg today) ⟨[]⟩).1,
     (runChat oracle (readyCall cfg today) ⟨[]⟩).2)

/-! ## The SSE streaming generators (api/chat.py) -/

/-- `_sse_message`: `f"data: {json.dumps(payload, ensure_ascii=False)}\n\n"`. -/
def sseMessage (payload : JValue) : String :=
  "data: " ++ jsonDumps payload ++ "\n\n"

def metaPayload (threadId : String) (isNewThread : Bool) : JValue :=
  .obj [("type", .str "meta"), ("thread_id", .str threadId), ("is_new_thread", .bool isNewThread)]

def deltaPayload (c : Char) : JValue :=
  .obj [("type", .str "delta"), ("delta", .str ⟨[c]⟩)]

def donePayload (threadId : String) : JValue :=
  .obj [("type", .str "done"), ("thread_id", .str threadId)]

def tempMetaPayload : JValue :=
  .obj [("type", .str "meta"), ("is_new_thread", .bool false), ("temporary", .bool true)]

def tempDonePayload : JValue :=
  .obj [("type", .str "done"), ("temporary", .bool true)]

/-- The per-character loop of the streaming generators (the inter-delta sleep
does not affect the emitted sequence). -/
def streamDeltas : List Char → List String
  | [] => []
  | c :: rest => sseMessage (deltaPayload c) :: streamDeltas rest

/-- `_stream_reply`: the full emitted event sequence. -/
def streamReply (threadId : String) (reply : String) (isNewThread : Bool) : List String :=
  sseMessage (metaPayload threadId isNewThread)
    :: (streamDeltas reply.data ++ [sseMessage (donePayload threadId)])

/-- `_stream_temporary_reply`: the ephemeral variant. -/
def streamTemporaryReply (reply : String) : List String :=
  sseMessage tempMetaPayload :: (streamDeltas reply.data ++ [sseMessage tempDonePayload])

/-! ## `build_chat_clients` (llm_clients.py) -/

def pyLower (s : String) : String := ⟨s.data.map Char.toLower⟩

/-- `_normalize_provider_name`. -/
def normalizeProviderName (p : Option String) : String :=
  let value := pyLower (pyStrip (p.getD ""))
  if value == "hf" || value == "huggingface" || value == "hugging_face" then "huggingface"
  else if value == "groq" then "groq"
  else if value == "gemini" || value == "google" then "gemini"
  else "huggingface"

/-- The configuration consumed by `build_chat_clients` (the pass-through
numeric fields `timeout_s` / `max_attempts` / `backoff_factor` are omitted:
they are copied verbatim into every client). -/
structure ClientsConfig where
  primaryProvider : String
  fallbackProviders : List String
  huggingFaceApiKey : Option String
  huggingFaceBaseUrl : String
  groqApiKey : Option String
  groqBaseUrl : String
  geminiApiKey : Option String
  geminiBaseUrl : String

/-- A constructed client: its provider name, credential and base URL. -/
structure ClientSpec where
  providerName : String
  apiKey : String
  baseUrl : String
deriving DecidableEq

/-- The `seen`-set deduplication loop of `build_chat_clients`. -/
def dedupKeepFirstAux (seen : List String) : List String → List String
  | [] => []
  | x :: xs =>
    if x ∈ seen then dedupKeepFirstAux seen xs
    else x :: dedupKeepFirstAux (x :: seen) xs

/-- Python `s.rstrip("/")`. -/
def rstripSlash (s : String) : String :=
  ⟨(s.data.reverse.dropWhile (· = '/')).reverse⟩

/-- The Hugging Face base-URL normalization of `build_chat_clients`. -/
def hfBaseOf (url : String) : String :=
  let base := rstripSlash (if url == "" then "https://router.huggingface.co" else url)
  if ['1', 'v', '/'].isPrefixOf base.data.reverse then ⟨base.data.take (base.data.length - 3)⟩
  else base

/-- Python truthiness of an optional credential. -/
def keyTruthy : Option String → Bool
  | none => false
  | some s => s != ""

/-- The loop body of `build_chat_clients`: construct a client for one
normalized provider name, skipping providers without a credential. -/
def mkClient (cfg : ClientsConfig) (provider : String) : Option ClientSpec :=
  if provider == "huggingface" && keyTruthy cfg.huggingFaceApiKey then
    some ⟨"huggingface", (cfg.huggingFaceApiKey.getD ""), hfBaseOf cfg.huggingFaceBaseUrl ++ "/v1"⟩
  else if provider == "groq" && keyTruthy cfg.groqApiKey then
    some ⟨"groq", (cfg.groqApiKey.getD ""),
      rstripSlash (if cfg.groqBaseUrl == "" then "https://api.groq.com/openai/v1" else cfg.groqBaseUrl)⟩
  else if provider == "gemini" && keyTruthy cfg.geminiApiKey then
    some ⟨"gemini", (cfg.geminiApiKey.getD ""),
      if cfg.geminiBaseUrl == "" then "https://generativelanguage.googleapis.com" else cfg.geminiBaseUrl⟩
  else none

/-- `build_chat_clients`: normalize and deduplicate the provider order
(primary first, then fallbacks), then construct a client per provider whose
credential is set. -/
def buildChatClients (cfg : ClientsConfig) : List ClientSpec :=
  (dedupKeepFirstAux []
      (normalizeProviderName (some cfg.primaryProvider)
        :: cfg.fallbackProviders.map (fun p => normalizeProviderName (some p)))).filterMap
    (mkClient cfg)

/-! ## Derived notions and example inputs used by the verification -/

/-- The documented emotion label set. -/
def emotionLabels : List String :=
  ["sad", "anxious", "angry", "neutral", "happy", "overwhelmed", "lonely", "stressed", "other"]

/-- The system prompt of a recorded provider call (its first message). -/
def headContent (c : ChatCall) : String :=
  (c.messages.headD ⟨"", ""⟩).content

/-- `st'` extends `st` by calls that all satisfy `P`. -/
def CallsExtendBy (P : ChatCall → Prop) (st st' : EffState) : Prop :=
  ∃ l, st'.calls = st.calls ++ l ∧ ∀ c ∈ l, P c

/-- Whether `build_chat_clients` has a credential for a normalized provider
name. -/
def providerHasKey (cfg : ClientsConfig) (p : String) : Bool :=
  if p == "huggingface" then keyTruthy cfg.huggingFaceApiKey
  else if p == "groq" then keyTruthy cfg.groqApiKey
  else if p == "gemini" then keyTruthy cfg.geminiApiKey
  else false

/-- A configuration with everything enabled and a key set. -/
def exCfg : LLMConfig :=
  ⟨false, "model-response", "model-emotion", "model-risk", "model-analysis", true, true, some "key"⟩

/-- A store whose `get_thread` raises. -/
def exStoreFail : StoreFn := fun _ _ => .error ()

/-- A benign provider: every call yields a low-risk classifier response. -/
def exOracleBenign : Oracle := fun _ =>
  .ok "\x7b\"toxicity\":0.0,\"self_harm\":0.0,\"harassment\":0.0,\"sexual\":0.0,\"violence\":0.0,\"overall_risk\":\"low\"\x7d"

/-- A client configuration with a groq fallback configured and credentialed. -/
def c4ClientsCfg : ClientsConfig :=
  ⟨"huggingface", ["groq"], some "hf", "", some "g", "", none, ""⟩

/-- A live `LLMService` configuration with risk and emotion stages off. -/
def c4Cfg : LLMConfig :=
  ⟨false, "model-response", "model-emotion", "model-risk", "model-analysis", false, false, some "hf"⟩

/-- A stored thread with one user message. -/
def exThreadMsgs : List RawMsg := [⟨some (.str "user"), some (.str "hello")⟩]

def exStoreOk : StoreFn := fun _ _ => .ok (some exThreadMsgs)

/-- A provider whose generation call (the third call of this run) fails. -/
def c4Oracle : Oracle := fun n => if n = 2 then .error () else .ok "no json"

/-- The high-risk classifier response used by the C2 witness. -/
def highRiskJson : String :=
  "\x7b\"toxicity\":0.1,\"self_harm\":0.9,\"harassment\":0.0,\"sexual\":0.0,\"violence\":0.0,\"overall_risk\":\"high\"\x7d"

/-- A provider returning a high-risk assessment, then arbitrary text. -/
def exOracleHigh : Oracle := fun n =>
  if n = 0 then .ok highRiskJson
  else if n = 1 then .ok "no json"
  else .ok "CRISIS REPLY"

/-! ## Helper lemmas -/

lemma safeFallback_ne_empty (m : String) : safeFallback m ≠ "" := by
  unfold safeFallback
  split <;> decide

lemma mock_ne_empty (m : String) : generateMockResponse m ≠ "" := by
  intro h
  have hd := congrArg String.data h
  rw [generateMockResponse, String.data_append] at hd
  simp at hd

/-! ## C1: the orchestrator always returns a non-empty string -/

/-- **C1.** For every configuration, user/thread id, user message, and every
behaviour of the conversation store and of the provider transport (each call
may raise or return anything, modelled by the `StoreFn` and `Oracle`
oracles), `generate_response` returns a non-empty string.  That no provider
or classifier exception propagates is expressed by the very type of
`generateResponse`: every raised exception (`Except.error`) of the inner
pipeline is consumed by its outermost handler, which substitutes the safe
fallback. -/
theorem claims_C1 (cfg : LLMConfig) (store : Option StoreFn) (oracle : Oracle)
    (uid tid userMessage : String) :
    (generateResponse cfg store oracle uid tid userMessage).1 ≠ "" := by
  unfold generateResponse
  by_cases hm : cfg.mockMode
  · simpa [hm] using mock_ne_empty userMessage
  · simp only [hm, Bool.false_eq_true, if_false]
    rcases hg : generateLlmResponse cfg store oracle uid tid userMessage ⟨[]⟩ with ⟨res, st⟩
    cases res with
    | ok s =>
      by_cases hs : pyStrip s = ""
      · simpa [hs] using safeFallback_ne_empty userMessage
      · simp [hs]
    | error e => simpa using safeFallback_ne_empty userMessage

/-! ## C3: the de-escalation decision -/

/-- **C3.** The de-escalation decision is exactly the disjunction of the two
documented threshold conditions, and in particular fires deterministically
for `class = explicit`, `confidence = 0.9`, `self_harm = 0.1`, independently
of every other score. -/
theorem claims_C3 :
    (∀ (risk : RiskA) (va : ViolenceA),
      shouldRunViolenceDeescalation risk va = true ↔
        (((va.otherDirectedViolence = "venting" ∨ va.otherDirectedViolence = "explicit") ∧
            va.confidence ≥ mkRat 35 100) ∨
          (risk.violence ≥ mkRat 65 100 ∧ risk.selfHarm < mkRat 4 10))) ∧
    (∀ (tox har sex vio : ℚ) (overall imminence : String),
      shouldRunViolenceDeescalation ⟨tox, mkRat 1 10, har, sex, vio, overall⟩
        ⟨"explicit", imminence, mkRat 9 10⟩ = true) := by
  constructor
  · intro risk va
    simp only [shouldRunViolenceDeescalation]
    split
    · rename_i h
      simp only [Bool.and_eq_true, Bool.or_eq_true, beq_iff_eq, decide_eq_true_eq] at h
      simp only [true_iff]
      exact Or.inl ⟨h.1, h.2⟩
    · rename_i h
      simp only [Bool.and_eq_true, Bool.or_eq_true, beq_iff_eq, decide_eq_true_eq] at h ⊢
      constructor
      · exact fun hb => Or.inr hb
      · rintro (hl | hr)
        · exact absurd hl h
        · exact hr
  · intro tox har sex vio overall imminence
    simp only [shouldRunViolenceDeescalation]
    have h : ((("explicit" : String) == "venting" || ("explicit" : String) == "explicit")
        && decide ((mkRat 9 10 : ℚ) ≥ mkRat 35 100)) = true := by decide
    rw [if_pos h]

/-! ## C8: the history invariant -/

/-- **C8.** For every stored thread, the history list produced by
`_get_thread_history(limit=10)` has at most 10 messages, each with role
`user` or `assistant` and content a string of non-empty strip, and it is a
sublist (hence in original stored order) of the normalization of the whole
stored thread. -/
theorem claims_C8 (msgs : List RawMsg) :
    (getThreadHistoryPure 10 msgs).length ≤ 10 ∧
    (∀ m ∈ getThreadHistoryPure 10 msgs,
      (m.role = "user" ∨ m.role = "assistant") ∧ pyStrip m.content ≠ "") ∧
    (getThreadHistoryPure 10 msgs).Sublist (msgs.filterMap normalizeMsg) := by
  unfold getThreadHistoryPure
  refine ⟨?_, ?_, ?_⟩
  · calc ((sliceLastPy 10 msgs).filterMap normalizeMsg).length
        ≤ (sliceLastPy 10 msgs).length := List.length_filterMap_le _ _
      _ ≤ 10 := by
        unfold sliceLastPy
        simp only [if_neg (by norm_num : ¬(10 = 0))]
        rw [List.length_drop]
        omega
  · intro m hm
    rcases List.mem_filterMap.mp hm with ⟨raw, _, hnorm⟩
    unfold normalizeMsg at hnorm
    split at hnorm
    · split at hnorm
      · rename_i hcond
        simp only [Bool.and_eq_true, Bool.or_eq_true, beq_iff_eq, bne_iff_ne] at hcond
        cases Option.some.inj hnorm
        exact ⟨hcond.1, hcond.2⟩
      · exact absurd hnorm (by simp)
    · exact absurd hnorm (by simp)
  · have h1 : (sliceLastPy 10 msgs).Sublist msgs := by
      unfold sliceLastPy
      split
      · exact List.Sublist.refl _
      · exact List.drop_sublist _ _
    exact h1.filterMap normalizeMsg

/-- Witness for C8 at a concrete stored thread. -/
theorem claims_C8_witness :
    (getThreadHistoryPure 10
        [⟨some (.str "user"), some (.str "hi")⟩,
         ⟨some (.str "system"), some (.str "x")⟩,
         ⟨some (.str "assistant"), some (.str "  ")⟩]).length ≤ 10 :=
  (claims_C8 _).1

/-! ## C9: the streaming event sequence -/

lemma streamDeltas_eq_map (l : List Char) :
    streamDeltas l = l.map (fun c => sseMessage (deltaPayload c)) := by
  induction l with
  | nil => rfl
  | cons c cs ih => simp [streamDeltas, ih]

/-- **C9.** For a reply of length `N`, `_stream_reply` emits exactly one
`meta` event, then `N` `delta` events carrying the reply's characters in
original order, then one `done` event; `_stream_temporary_reply` emits the
same `1 + N + 1` shape, its `meta` and `done` payloads carrying
`"temporary": true` and no `thread_id` key. -/
theorem claims_C9 (threadId reply : String) (isNewThread : Bool) :
    streamReply threadId reply isNewThread =
      sseMessage (metaPayload threadId isNewThread)
        :: (reply.data.map (fun c => sseMessage (deltaPayload c))
            ++ [sseMessage (donePayload threadId)]) ∧
    (streamReply threadId reply isNewThread).length = reply.length + 2 ∧
    streamTemporaryReply reply =
      sseMessage tempMetaPayload
        :: (reply.data.map (fun c => sseMessage (deltaPayload c))
            ++ [sseMessage tempDonePayload]) ∧
    sseMessage tempMetaPayload =
      "data: \x7b\"type\": \"meta\", \"is_new_thread\": false, \"temporary\": true\x7d\n\n" ∧
    sseMessage tempDonePayload =
      "data: \x7b\"type\": \"done\", \"temporary\": true\x7d\n\n" := by
  refine ⟨?_, ?_, ?_, rfl, rfl⟩
  · rw [streamReply, streamDeltas_eq_map]
  · rw [streamReply, streamDeltas_eq_map]
    have hsl : reply.length = reply.data.length := rfl
    simp only [List.length_cons, List.length_append, List.length_map, List.length_nil]
    omega
  · rw [streamTemporaryReply, streamDeltas_eq_map]

/-! ## C5: classifier defaults on malformed responses -/

/-- **C5, counterexample.** A syntactically valid emotion response whose
label `"confused"` lies outside the documented closed label set is *not*
mapped to the default `{other, 0.0}`: `_run_emotion` checks only that the
label is a string, so the out-of-enum label is returned verbatim with its
confidence. -/
theorem claims_C5_cex :
    emotionClassify "\x7b\"label\":\"confused\",\"confidence\":0.9\x7d"
      = ⟨"confused", mkRat 9 10⟩ ∧
    "confused" ∉ emotionLabels ∧
    emotionClassify "\x7b\"label\":\"confused\",\"confidence\":0.9\x7d" ≠ emotionDefault :=
  ⟨rfl, by decide, by decide⟩

/-- **C5, amended.** On failed extraction or decoding each classifier
returns its documented default, and so does emotion on a missing or
wrong-typed required field; but out-of-enum values are only coerced
field-wise: risk and violence replace just the offending enum field while
keeping the parsed numeric scores, and emotion does not validate the label
against its set at all. -/
theorem claims_C5_amended :
    (∀ s, extractFirstJsonObject s = none →
      riskClassify s = riskDefault ∧ violenceClassify s = violenceDefault ∧
        emotionClassify s = emotionDefault) ∧
    emotionClassify "\x7b\"confidence\":0.9\x7d" = emotionDefault ∧
    emotionClassify "\x7b\"label\":5,\"confidence\":0.9\x7d" = emotionDefault ∧
    emotionClassify "\x7b\"label\":\"sad\",\"confidence\":\"high\"\x7d" = emotionDefault ∧
    riskClassify "\x7b\"toxicity\":0.5,\"self_harm\":0.2,\"harassment\":0.0,\"sexual\":0.0,\"violence\":0.0,\"overall_risk\":\"extreme\"\x7d"
      = ⟨mkRat 1 2, mkRat 1 5, 0, 0, 0, "low"⟩ ∧
    violenceClassify "\x7b\"other_directed_violence\":\"banana\",\"imminence\":\"soon\",\"confidence\":0.8\x7d"
      = ⟨"none", "low", mkRat 4 5⟩ := by
  refine ⟨?_, rfl, rfl, rfl, rfl, rfl⟩
  intro s h
  refine ⟨?_, ?_, ?_⟩ <;>
    simp [riskClassify, violenceClassify, emotionClassify, parseRiskOpt,
      parseViolenceOpt, parseEmotionOpt, h]

/-- Witness for the amended C5 at a concrete extraction-free response. -/
theorem claims_C5_witness :
    riskClassify "no json here" = riskDefault ∧
    violenceClassify "no json here" = violenceDefault ∧
    emotionClassify "no json here" = emotionDefault :=
  claims_C5_amended.1 "no json here" rfl

/-! ## C6: a raising store read -/

/-- **C6, counterexample.** When the store read raises, the orchestrator
does *not* treat the history as empty and continue the pipeline: the run
makes no provider call at all (so no classifier and no generation ran) and
returns the safe fallback. -/
theorem claims_C6_cex :
    (generateResponse exCfg (some exStoreFail) exOracleBenign "u" "t" "hello").1
      = safeFallback "hello" ∧
    (generateResponse exCfg (some exStoreFail) exOracleBenign "u" "t" "hello").2.calls = [] :=
  ⟨rfl, rfl⟩

/-- **C6, amended.** If the history retrieval raises (live mode, key set),
the exception propagates to `generate_response`'s outermost handler: the
caller still receives the non-empty safe fallback, but the
classification-and-generation pipeline is not run — the call log stays
empty. -/
theorem claims_C6_amended (cfg : LLMConfig) (store : StoreFn) (oracle : Oracle)
    (uid tid userMessage : String)
    (hm : cfg.mockMode = false) (hk : hasKey cfg = true)
    (hs : store uid tid = .error ()) :
    generateResponse cfg (some store) oracle uid tid userMessage
      = (safeFallback userMessage, ⟨[]⟩) := by
  unfold generateResponse generateLlmResponse getThreadHistory
  simp [hm, hk, hs]

/-- Witness for the amended C6 at a concrete raising store. -/
theorem claims_C6_witness :
    generateResponse exCfg (some exStoreFail) exOracleBenign "u" "t" "hi"
      = (safeFallback "hi", ⟨[]⟩) :=
  claims_C6_amended exCfg exStoreFail exOracleBenign "u" "t" "hi" rfl rfl rfl

/-! ## C7: what the JSON extraction actually matches -/

/-- **C7, counterexample.** The text `{"a":1} {"b":2}` contains a
well-formed brace-delimited JSON object as a prefix (first conjunct), yet
extraction fails on the whole text: the greedy `re.search(r"\{.*\}", ...)`
match spans from the first `{` to the *last* `}`, which is not valid JSON,
so the classifier default is produced instead of the first object. -/
theorem claims_C7_cex :
    jsonLoads "\x7b\"a\":1\x7d" = some (.obj [("a", .num 1)]) ∧
    extractFirstJsonObject "\x7b\"a\":1\x7d \x7b\"b\":2\x7d" = none :=
  ⟨rfl, rfl⟩

/-- **C7, amended.** Extraction parses the span from the first `{` to the
last `}` of the whole text.  Hence a single JSON object surrounded by text
is returned only when nothing after it contains a `}`: for every `pre`
without `{` and every `post` without `}`, the object in
`pre ++ "\x7b\"a\":1\x7d" ++ post` is extracted; trailing text with a `}`
(in particular a second JSON object, see the counterexample) makes the
greedy span unparseable and yields the classifier default. -/
lemma data_mk (l : List Char) : (String.mk l).data = l := rfl

theorem claims_C7_amended (pre post : List Char)
    (hpre : '{' ∉ pre) (hpost : '}' ∉ post) :
    extractFirstJsonObject ⟨pre ++ "\x7b\"a\":1\x7d".data ++ post⟩
      = some (.obj [("a", .num 1)]) := by
  have hjd : ("\x7b\"a\":1\x7d" : String).data = ['\x7b', '"', 'a', '"', ':', '1', '\x7d'] := rfl
  rw [hjd]
  unfold extractFirstJsonObject
  rw [data_mk, if_neg (by simp)]
  have hfind1 : List.findIdx? (fun c => c == '{')
      (pre ++ ['\x7b', '"', 'a', '"', ':', '1', '\x7d'] ++ post) = some pre.length := by
    rw [List.findIdx?_append, List.findIdx?_append]
    have h1 : List.findIdx? (fun c => c == '{') pre = none :=
      List.findIdx?_eq_none_iff.mpr (fun x hx => by
        simp only [beq_eq_false_iff_ne, ne_eq]
        exact fun he => hpre (he ▸ hx))
    have h2 : List.findIdx? (fun c => c == '{') ['\x7b', '"', 'a', '"', ':', '1', '\x7d']
        = some 0 := rfl
    rw [h1, h2]
    simp
  have hfind2 : List.findIdx? (fun c => c == '}')
      (pre ++ ['\x7b', '"', 'a', '"', ':', '1', '\x7d'] ++ post).reverse = some post.length := by
    rw [List.reverse_append, List.reverse_append]
    rw [List.findIdx?_append, List.findIdx?_append]
    have h1 : List.findIdx? (fun c => c == '}') post.reverse = none :=
      List.findIdx?_eq_none_iff.mpr (fun x hx => by
        simp only [beq_eq_false_iff_ne, ne_eq]
        exact fun he => hpost (he ▸ List.mem_reverse.mp hx))
    have h2 : List.findIdx? (fun c => c == '}')
        (['\x7b', '"', 'a', '"', ':', '1', '\x7d'] : List Char).reverse = some 0 := rfl
    rw [h1, h2]
    simp
  unfold extractFirstJsonObjectChars
  rw [hfind1, hfind2]
  have key : (pre ++ ['\x7b', '"', 'a', '"', ':', '1', '\x7d'] ++ post).length - 1 - post.length
      = pre.length + 6 := by
    simp only [List.length_append, List.length_cons, List.length_nil]
    omega
  simp only [key]
  rw [if_pos (by omega)]
  have htake : pre.length + 6 + 1 = (pre ++ ['\x7b', '"', 'a', '"', ':', '1', '\x7d']).length := by
    simp only [List.length_append, List.length_cons, List.length_nil]
  rw [htake, List.take_left' rfl, List.drop_left' rfl]
  rfl

/-- Witness for the amended C7 with concrete brace-free surrounding text. -/
theorem claims_C7_witness :
    extractFirstJsonObject ⟨"model says: ".data ++ "\x7b\"a\":1\x7d".data ++ " hope it helps".data⟩
      = some (.obj [("a", .num 1)]) :=
  claims_C7_amended "model says: ".data " hope it helps".data (by decide) (by decide)

/-! ## C10: the daily greeting

Lemmas about `str.split()` / `" ".join(...)` / `str.strip()`. -/

/-- Every word produced by the splitter is non-empty and whitespace-free. -/
lemma splitWsAux_mem (l : List Char) :
    ∀ acc, (∀ c ∈ acc, isPyWs c = false) →
      ∀ w ∈ splitWsAux l acc, w ≠ [] ∧ ∀ c ∈ w, isPyWs c = false := by
  induction l with
  | nil =>
    intro acc hacc w hw
    unfold splitWsAux at hw
    split at hw
    · simp at hw
    · rename_i hne
      simp only [List.mem_singleton] at hw
      subst hw
      exact ⟨by simpa using hne, fun c hc => hacc c (List.mem_reverse.mp hc)⟩
  | cons c cs ih =>
    intro acc hacc w hw
    unfold splitWsAux at hw
    by_cases hc : isPyWs c
    · rw [if_pos hc] at hw
      split at hw
      · exact ih [] (by simp) w hw
      · rename_i hne
        rcases List.mem_cons.mp hw with hw | hw
        · subst hw
          exact ⟨by simpa using hne, fun d hd => hacc d (List.mem_reverse.mp hd)⟩
        · exact ih [] (by simp) w hw
    · rw [if_neg hc] at hw
      refine ih (c :: acc) ?_ w hw
      intro d hd
      rcases List.mem_cons.mp hd with hd | hd
      · subst hd; simpa using hc
      · exact hacc d hd

/-- Consuming a whitespace-free word just accumulates its characters. -/
lemma splitWsAux_word (w : List Char) (hw : ∀ c ∈ w, isPyWs c = false) :
    ∀ l acc, splitWsAux (w ++ l) acc = splitWsAux l (w.reverse ++ acc) := by
  induction w with
  | nil => intro l acc; simp
  | cons c w' ih =>
    intro l acc
    have hc : isPyWs c = false := hw c (by simp)
    have hw' : ∀ d ∈ w', isPyWs d = false := fun d hd => hw d (by simp [hd])
    have step : splitWsAux (c :: (w' ++ l)) acc = splitWsAux (w' ++ l) (c :: acc) := by
      conv_lhs => unfold splitWsAux
      rw [if_neg (by simp [hc])]
    show splitWsAux (c :: (w' ++ l)) acc = _
    rw [step, ih hw' l (c :: acc)]
    congr 1
    simp

/-- Splitting the space-join of non-empty whitespace-free words recovers
exactly those words. -/
lemma splitWs_joinSpace (ws : List (List Char))
    (h : ∀ w ∈ ws, w ≠ [] ∧ ∀ c ∈ w, isPyWs c = false) :
    splitWsAux (joinSpace ws) [] = ws := by
  induction ws with
  | nil => rfl
  | cons w rest ih =>
    have hw := h w (by simp)
    have hrest : ∀ v ∈ rest, v ≠ [] ∧ ∀ c ∈ v, isPyWs c = false :=
      fun v hv => h v (by simp [hv])
    cases rest with
    | nil =>
      show splitWsAux (joinSpace [w]) [] = [w]
      have : joinSpace [w] = w ++ [] := by simp [joinSpace]
      rw [this, splitWsAux_word w hw.2]
      unfold splitWsAux
      rw [if_neg (by simpa using hw.1)]
      simp
    | cons v vs =>
      have hjoin : joinSpace (w :: v :: vs) = w ++ (' ' :: joinSpace (v :: vs)) := by
        simp [joinSpace]
      rw [hjoin, splitWsAux_word w hw.2]
      show splitWsAux (' ' :: joinSpace (v :: vs)) (w.reverse ++ []) = _
      unfold splitWsAux
      rw [if_pos (by decide)]
      rw [if_neg (by simpa using hw.1)]
      rw [ih hrest]
      simp

/-- Dropping leading whitespace does not change the split. -/
lemma splitWsAux_dropWhile (l : List Char) :
    splitWsAux (l.dropWhile isPyWs) [] = splitWsAux l [] := by
  induction l with
  | nil => rfl
  | cons c cs ih =>
    by_cases hc : isPyWs c
    · rw [List.dropWhile_cons_of_pos hc, ih]
      have step : splitWsAux (c :: cs) [] = splitWsAux cs [] := by
        conv_lhs => unfold splitWsAux
        rw [if_pos hc, if_pos rfl]
      rw [step]
    · rw [List.dropWhile_cons_of_neg (by simp [hc])]

/-- Appending one trailing whitespace character does not change the split. -/
lemma splitWsAux_snoc_ws (c : Char) (hc : isPyWs c = true) :
    ∀ (l : List Char) (acc : List Char),
      splitWsAux (l ++ [c]) acc = splitWsAux l acc := by
  intro l
  induction l with
  | nil =>
    intro acc
    show splitWsAux [c] acc = splitWsAux [] acc
    unfold splitWsAux
    rw [if_pos hc]
    split
    · rfl
    · rfl
  | cons d ds ih =>
    intro acc
    show splitWsAux (d :: (ds ++ [c])) acc = splitWsAux (d :: ds) acc
    unfold splitWsAux
    by_cases hd : isPyWs d
    · rw [if_pos hd, if_pos hd]
      split <;> rw [ih]
    · rw [if_neg hd, if_neg hd, ih]

/-- Appending any trailing whitespace run does not change the split. -/
lemma splitWsAux_append_ws (suffix : List Char) (hs : ∀ c ∈ suffix, isPyWs c = true) :
    ∀ (l : List Char) (acc : List Char),
      splitWsAux (l ++ suffix) acc = splitWsAux l acc := by
  induction suffix using List.reverseRecOn with
  | nil => intro l acc; simp
  | append_singleton s' c ih =>
    intro l acc
    have hc : isPyWs c = true := hs c (by simp)
    have hs' : ∀ d ∈ s', isPyWs d = true := fun d hd => hs d (by simp [hd])
    rw [show l ++ (s' ++ [c]) = (l ++ s') ++ [c] by simp]
    rw [splitWsAux_snoc_ws c hc, ih hs']

/-- `str.strip()` does not change the word count. -/
lemma wordCount_pyStrip (s : String) : wordCount (pyStrip s) = wordCount s := by
  unfold wordCount splitWs pyStrip
  rw [data_mk]
  unfold stripChars
  set m := s.data.dropWhile isPyWs with hm
  have hdecomp : m = (m.reverse.dropWhile isPyWs).reverse
      ++ (m.reverse.takeWhile isPyWs).reverse := by
    conv_lhs => rw [← List.reverse_reverse m, ← List.takeWhile_append_dropWhile (p := isPyWs) (l := m.reverse)]
    rw [List.reverse_append]
  have hws : ∀ c ∈ (m.reverse.takeWhile isPyWs).reverse, isPyWs c = true := by
    intro c hc
    exact List.mem_takeWhile_imp (List.mem_reverse.mp hc)
  calc (splitWsAux (m.reverse.dropWhile isPyWs).reverse []).length
      = (splitWsAux ((m.reverse.dropWhile isPyWs).reverse
          ++ (m.reverse.takeWhile isPyWs).reverse) []).length := by
        rw [splitWsAux_append_ws _ hws]
    _ = (splitWsAux m []).length := by rw [← hdecomp]
    _ = (splitWsAux s.data []).length := by rw [hm, splitWsAux_dropWhile]

/-- The five canned lines are non-empty with at most five words. -/
lemma cannedReady_ok : ∀ x ∈ cannedReady, x ≠ "" ∧ wordCount x ≤ 5 := by decide

/-- The date-keyed fallback is one of the five canned lines. -/
lemma readyFallback_mem (pyHash : String → Int) (dateKey : String) :
    readyFallback pyHash dateKey ∈ cannedReady := by
  unfold readyFallback
  have hlt : (pyHash dateKey).natAbs % cannedReady.length < cannedReady.length :=
    Nat.mod_lt _ (by decide)
  rw [List.getD_eq_getElem _ _ hlt]
  exact List.getElem_mem hlt

/-- The clamp `" ".join(words[:5])` of any split has at most five words. -/
lemma wordCount_clamped (fl : String) :
    wordCount (pyStrip ⟨joinSpace ((splitWs fl).take 5)⟩) ≤ 5 := by
  rw [wordCount_pyStrip]
  have hmem : ∀ w ∈ (splitWs fl).take 5, w ≠ [] ∧ ∀ c ∈ w, isPyWs c = false :=
    fun w hw => splitWsAux_mem fl.data [] (by simp) w (List.mem_of_mem_take hw)
  have hcount : wordCount ⟨joinSpace ((splitWs fl).take 5)⟩ = ((splitWs fl).take 5).length := by
    show (splitWsAux (joinSpace ((splitWs fl).take 5)) []).length = _
    rw [splitWs_joinSpace _ hmem]
  rw [hcount]
  exact List.length_take_le _ _

/-- A successful but blank generation falls back. -/
lemma readyClamp_blank (fb raw : String) (h : pyStrip raw = "") :
    readyClamp fb raw = fb := by
  unfold readyClamp
  rw [h]
  rfl

/-- The clamped result is the fallback, or a non-empty line of at most five
words. -/
lemma readyClamp_spec (fb raw : String) :
    readyClamp fb raw = fb ∨
      (readyClamp fb raw ≠ "" ∧ wordCount (readyClamp fb raw) ≤ 5) := by
  unfold readyClamp
  by_cases h1 : (pyStripQuotes (pyStrip (firstLine (pyStrip raw))) == "") = true
  · rw [if_pos h1]; left; rfl
  · rw [if_neg h1]
    by_cases h2 : (pyStrip ⟨joinSpace ((splitWs (pyStripQuotes (pyStrip (firstLine (pyStrip raw))))).take 5)⟩ == "") = true
    · rw [if_pos h2]; left; rfl
    · rw [if_neg h2]
      exact Or.inr ⟨by simpa using h2, wordCount_clamped _⟩

/-- **C10.** `generate_daily_ready_message` always returns a non-empty line
of at most five whitespace-separated words; the date-keyed fallback is one of
the five canned lines; and in mock mode, without an API key, on a provider
exception, or on a blank generation, the result is exactly that fallback. -/
theorem claims_C10 (pyHash : String → Int) (cfg : LLMConfig) (oracle : Oracle)
    (today dateKey : String) :
    (generateDailyReadyMessage pyHash cfg oracle today dateKey).1 ≠ "" ∧
    wordCount (generateDailyReadyMessage pyHash cfg oracle today dateKey).1 ≤ 5 ∧
    readyFallback pyHash dateKey ∈ cannedReady ∧
    ((cfg.mockMode = true ∨ hasKey cfg = false ∨ oracle 0 = .error ()) →
      (generateDailyReadyMessage pyHash cfg oracle today dateKey).1
        = readyFallback pyHash dateKey) ∧
    (∀ s, oracle 0 = .ok s → pyStrip s = "" →
      (generateDailyReadyMessage pyHash cfg oracle today dateKey).1
        = readyFallback pyHash dateKey) := by
  have hfb := cannedReady_ok _ (readyFallback_mem pyHash dateKey)
  have hmem := readyFallback_mem pyHash dateKey
  unfold generateDailyReadyMessage
  by_cases hguard : (cfg.mockMode || !hasKey cfg) = true
  · rw [if_pos hguard]
    exact ⟨hfb.1, hfb.2, hmem, fun _ => rfl, fun _ _ _ => rfl⟩
  · rw [if_neg hguard]
    rw [show (runChat oracle (readyCall cfg today) ⟨[]⟩).1 = oracle 0 from rfl]
    simp only [Bool.or_eq_true, Bool.not_eq_true', not_or] at hguard
    rcases horacle : oracle 0 with e | s
    · exact ⟨hfb.1, hfb.2, hmem, fun _ => rfl, fun s' hs' _ => Except.noConfusion hs'⟩
    · simp only [readyOutcome]
      rcases readyClamp_spec (readyFallback pyHash dateKey) s with hcl | hcl
      · refine ⟨by rw [hcl]; exact hfb.1, by rw [hcl]; exact hfb.2, hmem, ?_, ?_⟩
        · intro _
          exact hcl
        · intro _ _ _
          exact hcl
      · refine ⟨hcl.1, hcl.2, hmem, ?_, ?_⟩
        · rintro (h | h | h)
          · exact absurd h (by simp [hguard.1])
          · exact absurd h (by simp [hguard.2])
          · exact Except.noConfusion h
        · intro s' hs' hstrip
          cases hs'
          exact readyClamp_blank _ _ hstrip

/-- Witness for C10: a provider exception yields the date-keyed canned
fallback. -/
theorem claims_C10_witness :
    (generateDailyReadyMessage (fun _ => 7) exCfg (fun _ => .error ()) "2026-10-12" "k").1
      = readyFallback (fun _ => 7) "k" :=
  (claims_C10 (fun _ => 7) exCfg (fun _ => .error ()) "2026-10-12" "k").2.2.2.1
    (Or.inr (Or.inr rfl))

/-! ## Call-log lemmas

Every pipeline stage only appends provider calls to the log.  The predicate
below tracks what a stage appended, so theorems can speak about which
classifiers ran and against which provider. -/

lemma callsExtend_refl {P : ChatCall → Prop} {st : EffState} : CallsExtendBy P st st :=
  ⟨[], by simp, by simp⟩

lemma callsExtend_trans {P : ChatCall → Prop} {st1 st2 st3 : EffState}
    (h1 : CallsExtendBy P st1 st2) (h2 : CallsExtendBy P st2 st3) :
    CallsExtendBy P st1 st3 := by
  obtain ⟨l1, e1, p1⟩ := h1
  obtain ⟨l2, e2, p2⟩ := h2
  refine ⟨l1 ++ l2, by rw [e2, e1, List.append_assoc], ?_⟩
  intro c hc
  rcases List.mem_append.mp hc with h | h
  · exact p1 c h
  · exact p2 c h

lemma callsExtend_runChat {P : ChatCall → Prop} (oracle : Oracle) (call : ChatCall)
    (st : EffState) (hP : P call) : CallsExtendBy P st (runChat oracle call st).2 :=
  ⟨[call], rfl, by simpa⟩

lemma callsExtend_runRisk {P : ChatCall → Prop} (cfg : LLMConfig) (oracle : Oracle)
    (userMessage : String) (history : List Msg) (st : EffState)
    (hP : P (riskCall cfg userMessage history)) :
    CallsExtendBy P st (runRisk cfg oracle userMessage history st).2 := by
  unfold runRisk
  rcases h : runChat oracle (riskCall cfg userMessage history) st with ⟨res, st'⟩
  have he := callsExtend_runChat (P := P) oracle (riskCall cfg userMessage history) st hP
  rw [h] at he
  cases res <;> exact he

lemma callsExtend_runViolence {P : ChatCall → Prop} (cfg : LLMConfig) (oracle : Oracle)
    (userMessage : String) (history : List Msg) (st : EffState)
    (hP : P (violenceCall cfg userMessage history)) :
    CallsExtendBy P st (runViolence cfg oracle userMessage history st).2 := by
  unfold runViolence
  rcases h : runChat oracle (violenceCall cfg userMessage history) st with ⟨res, st'⟩
  have he := callsExtend_runChat (P := P) oracle (violenceCall cfg userMessage history) st hP
  rw [h] at he
  cases res <;> exact he

lemma callsExtend_runEmotion {P : ChatCall → Prop} (cfg : LLMConfig) (oracle : Oracle)
    (userMessage : String) (st : EffState)
    (hP : P (emotionCall cfg userMessage)) :
    CallsExtendBy P st (runEmotion cfg oracle userMessage st).2 := by
  unfold runEmotion
  rcases h : runChat oracle (emotionCall cfg userMessage) st with ⟨res, st'⟩
  have he := callsExtend_runChat (P := P) oracle (emotionCall cfg userMessage) st hP
  rw [h] at he
  cases res <;> exact he

lemma callsExtend_runStrengths {P : ChatCall → Prop} (cfg : LLMConfig) (oracle : Oracle)
    (history : List Msg) (userMessage : String) (limit : Nat) (st : EffState)
    (hP : P (strengthsCall cfg userMessage history)) :
    CallsExtendBy P st (runStrengths cfg oracle history userMessage limit st).2 := by
  unfold runStrengths
  rcases h : runChat oracle (strengthsCall cfg userMessage history) st with ⟨res, st'⟩
  have he := callsExtend_runChat (P := P) oracle (strengthsCall cfg userMessage history) st hP
  rw [h] at he
  cases res <;> exact he

lemma callsExtend_runPatterns {P : ChatCall → Prop} (cfg : LLMConfig) (oracle : Oracle)
    (history : List Msg) (userMessage : String) (st : EffState)
    (hP : P (patternsCall cfg userMessage history)) :
    CallsExtendBy P st (runPatterns cfg oracle history userMessage st).2 := by
  unfold runPatterns
  rcases h : runChat oracle (patternsCall cfg userMessage history) st with ⟨res, st'⟩
  have he := callsExtend_runChat (P := P) oracle (patternsCall cfg userMessage history) st hP
  rw [h] at he
  cases res <;> exact he

lemma callsExtend_runResponse {P : ChatCall → Prop} (cfg : LLMConfig) (oracle : Oracle)
    (userMessage : String) (history : List Msg) (emotion : Option EmotionA) (st : EffState)
    (hStr : P (strengthsCall cfg userMessage history))
    (hPat : P (patternsCall cfg userMessage history))
    (hResp : ∀ system, P (responseCall cfg system history userMessage 256 (mkRat 7 10))) :
    CallsExtendBy P st (runResponse cfg oracle userMessage history emotion st).2 := by
  have ext1 : ∀ st0, CallsExtendBy P st0 (runStrengths cfg oracle history userMessage 2 st0).2 :=
    fun st0 => callsExtend_runStrengths (P := P) cfg oracle history userMessage 2 st0 hStr
  have ext2 : ∀ st0, CallsExtendBy P st0 (runPatterns cfg oracle history userMessage st0).2 :=
    fun st0 => callsExtend_runPatterns (P := P) cfg oracle history userMessage st0 hPat
  unfold runResponse
  split
  · rename_i heq
    have := ext1 st
    rw [heq] at this
    exact this
  · rename_i strengths st1 heq
    have e1 : CallsExtendBy P st st1 := by
      have := ext1 st
      rw [heq] at this
      exact this
    split
    · rename_i heq2
      have e2 := ext2 st1
      rw [heq2] at e2
      exact callsExtend_trans e1 e2
    · rename_i ps st2 heq2
      have e2 : CallsExtendBy P st1 st2 := by
        have := ext2 st1
        rw [heq2] at this
        exact this
      split <;> rename_i heq3 <;>
        · have e3 := callsExtend_runChat (P := P) oracle (responseCall cfg
              (responseSystem emotion strengths ps (extractRecentAssistant history 3))
              history userMessage 256 (mkRat 7 10)) st2 (hResp _)
          rw [heq3] at e3
          exact callsExtend_trans (callsExtend_trans e1 e2) e3

lemma callsExtend_runCrisis {P : ChatCall → Prop} (cfg : LLMConfig) (oracle : Oracle)
    (userMessage : String) (history : List Msg) (risk : RiskA) (st : EffState)
    (hStr : P (strengthsCall cfg userMessage history))
    (hResp : ∀ strengths, P (responseCall cfg
      (crisisSystem strengths (extractRecentAssistant history 3) risk)
      history userMessage 300 (mkRat 8 10))) :
    CallsExtendBy P st (runCrisisResponse cfg oracle userMessage history risk st).2 := by
  have ext1 : ∀ st0, CallsExtendBy P st0 (runStrengths cfg oracle history userMessage 2 st0).2 :=
    fun st0 => callsExtend_runStrengths (P := P) cfg oracle history userMessage 2 st0 hStr
  unfold runCrisisResponse
  split
  · rename_i heq
    have := ext1 st
    rw [heq] at this
    exact this
  · rename_i strengths st1 heq
    have e1 : CallsExtendBy P st st1 := by
      have := ext1 st
      rw [heq] at this
      exact this
    split <;> rename_i heq2 <;>
      · have e2 := callsExtend_runChat (P := P) oracle (responseCall cfg
            (crisisSystem strengths (extractRecentAssistant history 3) risk)
            history userMessage 300 (mkRat 8 10)) st1 (hResp strengths)
        rw [heq2] at e2
        exact callsExtend_trans e1 e2

lemma callsExtend_runDeesc {P : ChatCall → Prop} (cfg : LLMConfig) (oracle : Oracle)
    (userMessage : String) (history : List Msg) (risk : RiskA) (st : EffState)
    (hPat : P (patternsCall cfg userMessage history))
    (hResp : ∀ ps, P (responseCall cfg
      (deescSystem ps (extractRecentAssistant history 3) risk)
      history userMessage 260 (mkRat 7 10))) :
    CallsExtendBy P st (runDeescResponse cfg oracle userMessage history risk st).2 := by
  have ext1 : ∀ st0, CallsExtendBy P st0 (runPatterns cfg oracle history userMessage st0).2 :=
    fun st0 => callsExtend_runPatterns (P := P) cfg oracle history userMessage st0 hPat
  unfold runDeescResponse
  split
  · rename_i heq
    have := ext1 st
    rw [heq] at this
    exact this
  · rename_i ps st1 heq
    have e1 : CallsExtendBy P st st1 := by
      have := ext1 st
      rw [heq] at this
      exact this
    split <;> rename_i heq2 <;>
      · have e2 := callsExtend_runChat (P := P) oracle (responseCall cfg
            (deescSystem ps (extractRecentAssistant history 3) risk)
            history userMessage 260 (mkRat 7 10)) st1 (hResp ps)
        rw [heq2] at e2
        exact callsExtend_trans e1 e2

lemma callsExtend_respondChecked {P : ChatCall → Prop} (cfg : LLMConfig) (oracle : Oracle)
    (userMessage : String) (history : List Msg) (emotion : Option EmotionA) (st : EffState)
    (hStr : P (strengthsCall cfg userMessage history))
    (hPat : P (patternsCall cfg userMessage history))
    (hResp : ∀ system, P (responseCall cfg system history userMessage 256 (mkRat 7 10))) :
    CallsExtendBy P st (respondChecked cfg oracle userMessage history emotion st).2 := by
  have ext : CallsExtendBy P st (runResponse cfg oracle userMessage history emotion st).2 :=
    callsExtend_runResponse (P := P) cfg oracle userMessage history emotion st hStr hPat hResp
  unfold respondChecked
  split <;> rename_i heq <;> (rw [heq] at ext; exact ext)

lemma callsExtend_emotionAndRespond {P : ChatCall → Prop} (cfg : LLMConfig) (oracle : Oracle)
    (userMessage : String) (history : List Msg) (st : EffState)
    (hEmo : P (emotionCall cfg userMessage))
    (hStr : P (strengthsCall cfg userMessage history))
    (hPat : P (patternsCall cfg userMessage history))
    (hResp : ∀ system, P (responseCall cfg system history userMessage 256 (mkRat 7 10))) :
    CallsExtendBy P st (emotionAndRespond cfg oracle userMessage history st).2 := by
  unfold emotionAndRespond
  by_cases he : cfg.enableEmotion = true
  · rw [if_pos he]
    split
    · rename_i heq
      have e1 := callsExtend_runEmotion (P := P) cfg oracle userMessage st hEmo
      rw [heq] at e1
      exact e1
    · rename_i emo st1 heq
      have e1 : CallsExtendBy P st st1 := by
        have := callsExtend_runEmotion (P := P) cfg oracle userMessage st hEmo
        rw [heq] at this
        exact this
      exact callsExtend_trans e1
        (callsExtend_respondChecked cfg oracle userMessage history (some emo) st1 hStr hPat hResp)
  · rw [if_neg he]
    exact callsExtend_respondChecked cfg oracle userMessage history none st hStr hPat hResp

/-- Every call a full orchestration appends satisfies `P`, provided `P`
holds of every call record the pipeline can construct. -/
lemma callsExtend_generateLlm {P : ChatCall → Prop} (cfg : LLMConfig)
    (store : Option StoreFn) (oracle : Oracle) (uid tid userMessage : String) (st : EffState)
    (hRisk : ∀ history, P (riskCall cfg userMessage history))
    (hViol : ∀ history, P (violenceCall cfg userMessage history))
    (hEmo : P (emotionCall cfg userMessage))
    (hStr : ∀ history, P (strengthsCall cfg userMessage history))
    (hPat : ∀ history, P (patternsCall cfg userMessage history))
    (hResp : ∀ system history maxTokens temperature,
      P (responseCall cfg system history userMessage maxTokens temperature)) :
    CallsExtendBy P st (generateLlmResponse cfg store oracle uid tid userMessage st).2 := by
  unfold generateLlmResponse
  split
  · exact callsExtend_refl
  · rename_i getThread
    by_cases hk : (!hasKey cfg) = true
    · rw [if_pos hk]
      exact callsExtend_refl
    · rw [if_neg hk]
      split
      · exact callsExtend_refl
      · rename_i history heq0
        by_cases hr : (cfg.enableRisk && shouldRunRisk userMessage history) = true
        · rw [if_pos hr]
          split
          · rename_i heq
            have e1 := callsExtend_runRisk (P := P) cfg oracle userMessage history st (hRisk history)
            rw [heq] at e1
            exact e1
          · rename_i risk st1 heq
            have e1 : CallsExtendBy P st st1 := by
              have := callsExtend_runRisk (P := P) cfg oracle userMessage history st (hRisk history)
              rw [heq] at this
              exact this
            by_cases hhigh : (risk.overallRisk == "high") = true
            · rw [if_pos hhigh]
              exact callsExtend_trans e1
                (callsExtend_runCrisis cfg oracle userMessage history risk st1
                  (hStr history) (fun s => hResp _ _ _ _))
            · rw [if_neg hhigh]
              split
              · rename_i heq2
                have e2 := callsExtend_runViolence (P := P) cfg oracle userMessage history st1
                  (hViol history)
                rw [heq2] at e2
                exact callsExtend_trans e1 e2
              · rename_i va st2 heq2
                have e2 : CallsExtendBy P st1 st2 := by
                  have := callsExtend_runViolence (P := P) cfg oracle userMessage history st1
                    (hViol history)
                  rw [heq2] at this
                  exact this
                by_cases hde : shouldRunViolenceDeescalation risk va = true
                · rw [if_pos hde]
                  exact callsExtend_trans (callsExtend_trans e1 e2)
                    (callsExtend_runDeesc cfg oracle userMessage history risk st2
                      (hPat history) (fun ps => hResp _ _ _ _))
                · rw [if_neg hde]
                  exact callsExtend_trans (callsExtend_trans e1 e2)
                    (callsExtend_emotionAndRespond cfg oracle userMessage history st2
                      hEmo (hStr history) (hPat history) (fun s => hResp _ _ _ _))
        · rw [if_neg hr]
          exact callsExtend_emotionAndRespond cfg oracle userMessage history st
            hEmo (hStr history) (hPat history) (fun s => hResp _ _ _ _)

/-- The final state of `generate_response` is that of the inner pipeline
(live mode), or the empty log (mock mode). -/
lemma generateResponse_state (cfg : LLMConfig) (store : Option StoreFn) (oracle : Oracle)
    (uid tid userMessage : String) (hm : cfg.mockMode = false) :
    (generateResponse cfg store oracle uid tid userMessage).2
      = (generateLlmResponse cfg store oracle uid tid userMessage ⟨[]⟩).2 := by
  unfold generateResponse
  rw [if_neg (by simp [hm])]
  rcases h : generateLlmResponse cfg store oracle uid tid userMessage ⟨[]⟩ with ⟨res, st⟩
  cases res with
  | error e => rfl
  | ok s =>
    show (if (pyStrip s != "") = true then (pyStrip s, st)
      else (safeFallback userMessage, st)).2 = st
    split <;> rfl

/-! ## C4: provider order and the absence of failover -/

lemma mkClient_name (cfg : ClientsConfig) (p : String) :
    (mkClient cfg p).map (fun c => c.providerName)
      = if providerHasKey cfg p then some p else none := by
  unfold mkClient providerHasKey
  by_cases h1 : (p == "huggingface") = true
  · have hp : p = "huggingface" := by simpa using h1
    subst hp
    by_cases hk : keyTruthy cfg.huggingFaceApiKey = true <;> simp [hk]
  · by_cases h2 : (p == "groq") = true
    · have hp : p = "groq" := by simpa using h2
      subst hp
      by_cases hk : keyTruthy cfg.groqApiKey = true <;> simp [hk]
    · by_cases h3 : (p == "gemini") = true
      · have hp : p = "gemini" := by simpa using h3
        subst hp
        by_cases hk : keyTruthy cfg.geminiApiKey = true <;> simp [hk]
      · simp [h1, h2, h3]

lemma filterMap_mkClient_names (cfg : ClientsConfig) (l : List String) :
    (l.filterMap (mkClient cfg)).map (fun c => c.providerName)
      = l.filter (providerHasKey cfg) := by
  induction l with
  | nil => rfl
  | cons x xs ih =>
    rw [List.filterMap_cons]
    have hx := mkClient_name cfg x
    rcases hm : mkClient cfg x with _ | c
    · rw [hm] at hx
      have hkey : providerHasKey cfg x = false := by
        by_contra hne
        rw [if_pos (by simpa using (Bool.not_eq_false _).mp hne)] at hx
        exact Option.noConfusion hx
      rw [List.filter_cons_of_neg (by simp [hkey]), ih]
    · rw [hm] at hx
      have hkey : providerHasKey cfg x = true := by
        by_contra hne
        rw [if_neg (by simpa using hne)] at hx
        exact Option.noConfusion hx
      rw [if_pos hkey] at hx
      have hname : c.providerName = x := by
        simpa using hx
      rw [List.filter_cons_of_pos hkey, List.map_cons, hname, ih]

/-- **C4, amended.** `build_chat_clients` produces clients in the configured
priority order — the primary provider first, then the fallbacks, normalized,
deduplicated, and restricted to providers with a credential.  But the
response orchestrator never performs failover: every provider call of every
run is made against the single Hugging Face client (the only one
`LLMService` constructs), so no fallback provider is ever invoked. -/
theorem claims_C4_amended :
    (∀ cfg : ClientsConfig,
      (buildChatClients cfg).map (fun c => c.providerName)
        = (dedupKeepFirstAux []
            (normalizeProviderName (some cfg.primaryProvider)
              :: cfg.fallbackProviders.map (fun p => normalizeProviderName (some p)))).filter
            (providerHasKey cfg)) ∧
    (∀ (cfg : LLMConfig) (store : Option StoreFn) (oracle : Oracle)
        (uid tid userMessage : String),
      ((generateResponse cfg store oracle uid tid userMessage).2.calls.all
        (fun c => c.provider == "huggingface")) = true) := by
  constructor
  · intro cfg
    unfold buildChatClients
    exact filterMap_mkClient_names cfg _
  · intro cfg store oracle uid tid userMessage
    by_cases hm : cfg.mockMode = true
    · unfold generateResponse
      rw [if_pos hm]
      rfl
    · rw [generateResponse_state cfg store oracle uid tid userMessage
        (by simpa using hm)]
      obtain ⟨l, hl, hp⟩ := callsExtend_generateLlm
        (P := fun c => c.provider = "huggingface") cfg store oracle uid tid userMessage ⟨[]⟩
        (fun _ => rfl) (fun _ => rfl) rfl (fun _ => rfl) (fun _ => rfl) (fun _ _ _ _ => rfl)
      rw [List.all_eq_true]
      intro c hc
      rw [hl] at hc
      simp only [List.nil_append] at hc
      simp [hp c hc]

/-- **C4, counterexample.** With a credentialed groq fallback configured
(`build_chat_clients` would order it second), a run whose generation call
against the primary provider fails with a provider error is converted
directly into the safe fallback text: no groq client is ever invoked — every
call of the run went to Hugging Face.  This contradicts "the next configured
fallback provider is invoked" and "only after every configured provider has
failed". -/
theorem claims_C4_cex :
    (buildChatClients c4ClientsCfg).map (fun c => c.providerName) = ["huggingface", "groq"] ∧
    (generateResponse c4Cfg (some exStoreOk) c4Oracle "u" "t" "hello").1
      = safeFallback "hello" ∧
    ((generateResponse c4Cfg (some exStoreOk) c4Oracle "u" "t" "hello").2.calls.map
      (fun c => c.provider)) = ["huggingface", "huggingface", "huggingface"] := by
  refine ⟨by rfl, by rfl, by rfl⟩

/-! ## C2: `overall_risk = high` selects the crisis strategy -/

/-- A non-blank-headed, non-blank-tailed prefix survives `strip` of any
extension. -/
lemma isPre_stripChars (p tail : List Char) (hp : p ≠ [])
    (hhead : ∀ c ∈ p.take 1, isPyWs c = false)
    (hlast : ∀ c ∈ p.getLast?, isPyWs c = false) :
    p <+: stripChars (p ++ tail) := by
  unfold stripChars
  have h1 : (p ++ tail).dropWhile isPyWs = p ++ tail := by
    cases p with
    | nil => exact absurd rfl hp
    | cons c p' =>
      have hc : isPyWs c = false := hhead c (by simp)
      simp [List.dropWhile_cons, hc]
  rw [h1, List.reverse_append, List.dropWhile_append]
  by_cases h2 : ((tail.reverse.dropWhile isPyWs).isEmpty) = true
  · rw [if_pos h2]
    have h3 : p.reverse.dropWhile isPyWs = p.reverse := by
      cases hrev : p.reverse with
      | nil => simp
      | cons c pr =>
        have hc0 : p.getLast? = some c := by
          rw [← List.head?_reverse, hrev]
          rfl
        have hc : isPyWs c = false := hlast c (by rw [hc0]; rfl)
        simp [List.dropWhile_cons, hc]
    rw [h3, List.reverse_reverse]
  · rw [if_neg h2, List.reverse_append, List.reverse_reverse]
    exact List.prefix_append _ _

set_option maxHeartbeats 2000000 in
/-- Every crisis system prompt starts with its distinctive head line. -/
lemma crisis_head_isPre (strengths recent : List String) (risk : RiskA) :
    "You are Calm Sphere, handling".data <+: (crisisSystem strengths recent risk).data := by
  unfold crisisSystem
  show "You are Calm Sphere, handling".data <+: stripChars
    ((crisisBaseSystem ++ crisisStrengthsLine strengths ++ "\n"
      ++ repeatGuardLine recent ++ "\n"
      ++ "Risk classifier output: " ++ jsonDumps (riskToJson risk)).data)
  simp only [String.data_append, List.append_assoc]
  have hsplit : crisisBaseSystem.data
      = "You are Calm Sphere, handling".data ++ crisisBaseSystem.data.drop 29 := by rfl
  rw [hsplit, List.append_assoc]
  exact isPre_stripChars _ _ (by decide) (by decide) (by decide)

/-- A crisis system prompt is never the emotion or violence classifier
prompt. -/
lemma crisisSystem_ne (strengths recent : List String) (risk : RiskA) :
    crisisSystem strengths recent risk ≠ emotionSystem ∧
    crisisSystem strengths recent risk ≠ violenceSystem := by
  have hpre := crisis_head_isPre strengths recent risk
  constructor
  · intro h
    rw [h] at hpre
    exact absurd hpre (by decide)
  · intro h
    rw [h] at hpre
    exact absurd hpre (by decide)

/-- **C2.** In live mode with the risk stage enabled, whenever the risk
classifier's parsed output has `overall_risk = "high"`, the orchestrator's
run *is* the crisis-response run (after the single risk call): the crisis
strategy is the terminal state.  Moreover no call of the whole run carries
the emotion-classifier or violence-intent system prompt — those classifiers
never ran — and the standard response path is never reached (the run equals
the crisis run, whose calls are the strengths analysis and the
crisis-prompted generation). -/
theorem claims_C2 (cfg : LLMConfig) (getThread : StoreFn) (oracle : Oracle)
    (uid tid userMessage : String) (thr : ThreadData) (s0 : String)
    (hmock : cfg.mockMode = false) (hkey : hasKey cfg = true)
    (hstore : getThread uid tid = .ok thr) (hrisk : cfg.enableRisk = true)
    (h0 : oracle 0 = .ok s0) (hhigh : (riskClassify s0).overallRisk = "high") :
    generateLlmResponse cfg (some getThread) oracle uid tid userMessage ⟨[]⟩
      = runCrisisResponse cfg oracle userMessage (getThreadHistoryPure 10 (thr.getD []))
          (riskClassify s0)
          ⟨[riskCall cfg userMessage (getThreadHistoryPure 10 (thr.getD []))]⟩ ∧
    ∀ c ∈ (generateResponse cfg (some getThread) oracle uid tid userMessage).2.calls,
      headContent c ≠ emotionSystem ∧ headContent c ≠ violenceSystem := by
  have hhist : getThreadHistory getThread uid tid 10
      = .ok (getThreadHistoryPure 10 (thr.getD [])) := by
    unfold getThreadHistory
    rw [hstore]
  have hrun : runRisk cfg oracle userMessage (getThreadHistoryPure 10 (thr.getD [])) ⟨[]⟩
      = (.ok (riskClassify s0),
         ⟨[riskCall cfg userMessage (getThreadHistoryPure 10 (thr.getD []))]⟩) := by
    unfold runRisk
    rw [show runChat oracle (riskCall cfg userMessage (getThreadHistoryPure 10 (thr.getD []))) ⟨[]⟩
        = (oracle 0, ⟨[riskCall cfg userMessage (getThreadHistoryPure 10 (thr.getD []))]⟩) from rfl]
    rw [h0]
  have heq : generateLlmResponse cfg (some getThread) oracle uid tid userMessage ⟨[]⟩
      = runCrisisResponse cfg oracle userMessage (getThreadHistoryPure 10 (thr.getD []))
          (riskClassify s0)
          ⟨[riskCall cfg userMessage (getThreadHistoryPure 10 (thr.getD []))]⟩ := by
    simp only [generateLlmResponse]
    rw [if_neg (by simp [hkey])]
    rw [hhist]
    simp only [hrisk, shouldRunRisk, Bool.and_self, if_true]
    rw [hrun]
    simp only [hhigh, if_pos (by simp : (("high" : String) == "high") = true)]
  refine ⟨heq, ?_⟩
  have hP2risk : headContent (riskCall cfg userMessage (getThreadHistoryPure 10 (thr.getD [])))
      ≠ emotionSystem ∧
      headContent (riskCall cfg userMessage (getThreadHistoryPure 10 (thr.getD [])))
      ≠ violenceSystem := by
    constructor <;> · show riskSystem ≠ _; decide
  have hext : CallsExtendBy
      (fun c => headContent c ≠ emotionSystem ∧ headContent c ≠ violenceSystem)
      ⟨[riskCall cfg userMessage (getThreadHistoryPure 10 (thr.getD []))]⟩
      (runCrisisResponse cfg oracle userMessage (getThreadHistoryPure 10 (thr.getD []))
        (riskClassify s0)
        ⟨[riskCall cfg userMessage (getThreadHistoryPure 10 (thr.getD []))]⟩).2 := by
    refine callsExtend_runCrisis _ _ _ _ _ _ ?_ ?_
    · constructor <;> · show strengthsSystem ≠ _; decide
    · intro strengths
      have := crisisSystem_ne strengths
        (extractRecentAssistant (getThreadHistoryPure 10 (thr.getD [])) 3) (riskClassify s0)
      exact ⟨this.1, this.2⟩
  intro c hc
  rw [generateResponse_state cfg (some getThread) oracle uid tid userMessage hmock, heq] at hc
  obtain ⟨l, hl, hp⟩ := hext
  rw [hl] at hc
  rcases List.mem_append.mp hc with h | h
  · simp only [List.mem_singleton] at h
    subst h
    exact hP2risk
  · exact hp c h

/-- Witness for C2 at a concrete high-risk run. -/
theorem claims_C2_witness :
    generateLlmResponse exCfg (some exStoreOk) exOracleHigh "u" "t" "hi" ⟨[]⟩
      = runCrisisResponse exCfg exOracleHigh "hi"
          (getThreadHistoryPure 10 ((some exThreadMsgs : ThreadData).getD []))
          (riskClassify highRiskJson)
          ⟨[riskCall exCfg "hi"
              (getThreadHistoryPure 10 ((some exThreadMsgs : ThreadData).getD []))]⟩ :=
  (claims_C2 exCfg exStoreOk exOracleHigh "u" "t" "hi" (some exThreadMsgs) highRiskJson
    rfl rfl rfl rfl rfl (by rfl)).1

end Calm
